import Mathlib

/-!
Shallow embedding of the Lokalapp wallet-ledger and purchase/settlement
engine (src/backend/app): the data model (models/wallet.py, agent.py,
transaction.py, wifi_voucher.py, electricity.py, user.py) and the five
ledger-mutating endpoint handlers

  * routers/wifi.py         purchase_wifi
  * routers/electricity.py  purchase_electricity
  * routers/wallet.py       transfer_funds
  * routers/agent.py        process_transaction
  * routers/agent.py        withdraw_commission

Money is modelled as exact rationals (the source uses Python Decimal with
2-decimal fixed point everywhere; additions/subtractions/multiplications
performed by the source are exact in Decimal, so rationals are a faithful
carrier).  Database rows are lists of records; id/reference/voucher-code
generation (uuid4 / random codes in utils/security.py) is determinised by
a fresh counter threaded through the state, preserving exactly the
freshness/uniqueness the source relies on.  Each handler is a pure
function from a committed state to `Except ApiError (result x state)`;
raising an HTTPException before `db.commit()` rolls the SQLAlchemy session
back, so an error leaves the committed state unchanged, which the
embedding renders by returning `.error` and discarding all writes.
-/

namespace Lokal

/-- WalletStatus enum (models/wallet.py). -/
inductive WalletStatus | ACTIVE | FROZEN | CLOSED
deriving DecidableEq, Repr

/-- AgentTier enum (models/agent.py). -/
inductive AgentTier | BRONZE | SILVER | GOLD | PLATINUM
deriving DecidableEq, Repr

/-- AgentStatus enum (models/agent.py). -/
inductive AgentStatus | PENDING | ACTIVE | SUSPENDED
deriving DecidableEq, Repr

/-- TransactionType enum (models/transaction.py). -/
inductive TransactionType | TOPUP | PURCHASE | TRANSFER | REFUND | COMMISSION | WITHDRAWAL
deriving DecidableEq, Repr

/-- TransactionStatus enum (models/transaction.py). -/
inductive TransactionStatus | PENDING | COMPLETED | FAILED | REVERSED
deriving DecidableEq, Repr

/-- PaymentMethod enum (models/transaction.py). -/
inductive PaymentMethod | CARD | EFT | AGENT | VOUCHER | WALLET | SNAPSCAN | ZAPPER
deriving DecidableEq, Repr

/-- VoucherStatus enum (models/wifi_voucher.py). -/
inductive VoucherStatus | UNUSED | ACTIVE | EXPIRED | DEPLETED
deriving DecidableEq, Repr

/-- MeterStatus enum (models/electricity.py). -/
inductive MeterStatus | ON | OFF | TAMPERED | OFFLINE
deriving DecidableEq, Repr

/-- The product_type tag stored in Transaction.extra_data by the handlers. -/
inductive ProductKind | WIFI | ELECTRICITY
deriving DecidableEq, Repr

/-- User row (models/user.py), restricted to the fields the ledger touches. -/
structure User where
  id : Nat
  phone_number : String
  loyalty_points : Int
deriving DecidableEq, Repr

/-- Wallet row (models/wallet.py); balances and limits are exact decimals. -/
structure Wallet where
  id : Nat
  user_id : Nat
  balance : ℚ
  status : WalletStatus
  daily_limit : ℚ
  monthly_limit : ℚ
  daily_spent : ℚ
  monthly_spent : ℚ
deriving DecidableEq, Repr

/-- Column defaults of models/wallet.py: balance 0.00, ACTIVE, limits 5000/50000. -/
def Wallet.mkDefault (id uid : Nat) : Wallet :=
  { id := id, user_id := uid, balance := 0, status := .ACTIVE,
    daily_limit := 5000, monthly_limit := 50000, daily_spent := 0, monthly_spent := 0 }

/-- Agent row (models/agent.py), ledger-relevant fields. -/
structure Agent where
  id : Nat
  user_id : Nat
  tier : AgentTier
  status : AgentStatus
  float_balance : ℚ
  commission_balance : ℚ
  total_sales : ℚ
  monthly_sales : ℚ
deriving DecidableEq, Repr

/-- COMMISSION_RATES table (models/agent.py lines 31-36). -/
def COMMISSION_RATES : AgentTier → ℚ
  | .BRONZE => 5/100
  | .SILVER => 7/100
  | .GOLD => 10/100
  | .PLATINUM => 12/100

/-- settings.REFERRAL_BONUS_AMOUNT (config.py line 51). -/
def REFERRAL_BONUS_AMOUNT : ℚ := 10

/-- WiFiPackage row (models/wifi_voucher.py). -/
structure WiFiPackage where
  id : Nat
  price : ℚ
  data_limit_mb : Int
  validity_hours : Int
  is_active : Int
deriving DecidableEq, Repr

/-- ElectricityPackage row (models/electricity.py); kwh_amount as used by the
purchase handlers (nullable in the schema, always read as a number there). -/
structure ElectricityPackage where
  id : Nat
  price : ℚ
  kwh_amount : ℚ
  is_active : Int
deriving DecidableEq, Repr

/-- ElectricityMeter row (models/electricity.py), ledger-relevant fields. -/
structure ElectricityMeter where
  id : Nat
  user_id : Nat
  kwh_balance : ℚ
  status : MeterStatus
deriving DecidableEq, Repr

/-- Transaction row (models/transaction.py).  `product_type` carries the
extra_data["product_type"] tag the handlers attach (none when absent). -/
structure Txn where
  id : Nat
  wallet_id : Nat
  type : TransactionType
  amount : ℚ
  fee : ℚ
  balance_before : ℚ
  balance_after : ℚ
  reference : String
  status : TransactionStatus
  payment_method : Option PaymentMethod
  agent_id : Option Nat
  idempotency_key : Option String
  product_type : Option ProductKind
deriving DecidableEq, Repr

/-- WiFiVoucher row (models/wifi_voucher.py), ledger-relevant fields. -/
structure WiFiVoucher where
  id : Nat
  user_id : Nat
  package_id : Nat
  voucher_code : String
  status : VoucherStatus
  data_limit_mb : Int
  validity_hours : Int
  transaction_id : Option Nat
deriving DecidableEq, Repr

/-- The committed database state seen by the ledger engine, plus a fresh-id
counter determinising uuid/reference/code generation. -/
structure LedgerState where
  users : List User
  wallets : List Wallet
  agents : List Agent
  wifi_packages : List WiFiPackage
  elec_packages : List ElectricityPackage
  meters : List ElectricityMeter
  txns : List Txn
  vouchers : List WiFiVoucher
  nextId : Nat
deriving DecidableEq, Repr

/-- generate_transaction_reference (utils/security.py), determinised. -/
def txRef (n : Nat) : String := "TXN" ++ toString n

/-- generate_voucher_code (utils/security.py), determinised. -/
def vCode (n : Nat) : String := "VC" ++ toString n

/-- Replace-in-place update of the wallet row with the given id
(the ORM mutates the loaded row; the UPDATE lands at commit). -/
def updateWalletById (ws : List Wallet) (i : Nat) (f : Wallet → Wallet) : List Wallet :=
  ws.map fun w => if w.id = i then f w else w

/-- Replace-in-place update of the agent row with the given id. -/
def updateAgentById (as_ : List Agent) (i : Nat) (f : Agent → Agent) : List Agent :=
  as_.map fun a => if a.id = i then f a else a

/-- Replace-in-place update of the user row with the given id. -/
def updateUserById (us : List User) (i : Nat) (f : User → User) : List User :=
  us.map fun u => if u.id = i then f u else u

/-- Replace-in-place update of the meter row with the given id. -/
def updateMeterById (ms : List ElectricityMeter) (i : Nat) (f : ElectricityMeter → ElectricityMeter) :
    List ElectricityMeter :=
  ms.map fun m => if m.id = i then f m else m

/-- The wallet mutation every wallet-funded purchase performs (wifi.py lines
104-107, electricity.py lines 117-120): debit the balance and bump both
spend counters by the price. -/
def debitWalletForPurchase (price : ℚ) (w : Wallet) : Wallet :=
  { w with balance := w.balance - price,
           daily_spent := w.daily_spent + price,
           monthly_spent := w.monthly_spent + price }

/-- SELECT Wallet WHERE user_id = uid (one wallet per user). -/
def findWalletByUser (s : LedgerState) (uid : Nat) : Option Wallet :=
  s.wallets.find? fun w => w.user_id == uid

/-- SELECT User WHERE phone_number = phone. -/
def findUserByPhone (s : LedgerState) (phone : String) : Option User :=
  s.users.find? fun u => u.phone_number == phone

/-- SELECT Agent WHERE user_id = uid (the get_current_agent dependency's query). -/
def findAgentByUser (s : LedgerState) (uid : Nat) : Option Agent :=
  s.agents.find? fun a => a.user_id == uid

/-- SELECT Transaction WHERE idempotency_key = k. -/
def findTxnByKey (txns : List Txn) (k : String) : Option Txn :=
  txns.find? fun t => t.idempotency_key == some k

/-- The idempotency pre-check: a hit only when the request carries a key and a
transaction with that key already exists. -/
def idemHit (s : LedgerState) (key : Option String) : Option Txn :=
  key.bind (findTxnByKey s.txns)

/-- Typed rendering of the HTTPExceptions the five handlers raise. -/
inductive ApiError
  | packageNotFound
  | walletNotAvailable
  | insufficientBalance
  | meterNotFound
  | meterTampered
  | dailyLimitExceeded
  | monthlyLimitExceeded
  | recipientNotFound
  | selfTransferNotAllowed
  | recipientWalletNotAvailable
  | notAnAgent
  | agentNotActive
  | insufficientFloat
  | insufficientCash
  | meterIdRequired
  | invalidProductType
  | insufficientCommission
  | walletNotFound
deriving DecidableEq, Repr

/-- WiFiPurchaseRequest (schemas/wifi.py), ledger-relevant fields. -/
structure WiFiPurchaseRequest where
  package_id : Nat
  idempotency_key : Option String
deriving DecidableEq, Repr

/-- Response of purchase_wifi, covering both the fresh-purchase dict and the
already_processed short-circuit dict. -/
structure WiFiPurchaseResult where
  transaction_id : Nat
  voucher_id : Option Nat
  voucher_code : Option String
  already_processed : Bool
  new_balance : Option ℚ
deriving DecidableEq, Repr

/-- Successful-commit state of purchase_wifi (routers/wifi.py lines 103-147):
debit the wallet, bump the spend counters, insert the COMPLETED PURCHASE
transaction (amount = -price) and the UNUSED voucher linked to it via
transaction_id, and award loyalty points int(price/10). -/
def wifiSuccState (s : LedgerState) (uid : Nat) (package : WiFiPackage) (wallet : Wallet)
    (key : Option String) : LedgerState :=
  let txn : Txn :=
    { id := s.nextId, wallet_id := wallet.id, type := .PURCHASE,
      amount := -package.price, fee := 0,
      balance_before := wallet.balance, balance_after := wallet.balance - package.price,
      reference := txRef s.nextId, status := .COMPLETED,
      payment_method := some .WALLET, agent_id := none,
      idempotency_key := key, product_type := some .WIFI }
  let voucher : WiFiVoucher :=
    { id := s.nextId + 1, user_id := uid, package_id := package.id,
      voucher_code := vCode (s.nextId + 1), status := .UNUSED,
      data_limit_mb := package.data_limit_mb, validity_hours := package.validity_hours,
      transaction_id := some s.nextId }
  { s with
    wallets := updateWalletById s.wallets wallet.id (debitWalletForPurchase package.price),
    txns := s.txns ++ [txn],
    vouchers := s.vouchers ++ [voucher],
    users := updateUserById s.users uid fun u =>
      { u with loyalty_points := u.loyalty_points + (package.price / 10).floor },
    nextId := s.nextId + 2 }

/-- purchase_wifi (routers/wifi.py lines 46-158).  Check order as in the
source: package, wallet availability, balance, then the idempotency
short-circuit, then the debit+issue commit. -/
def purchase_wifi (s : LedgerState) (uid : Nat) (req : WiFiPurchaseRequest) :
    Except ApiError (WiFiPurchaseResult × LedgerState) :=
  match (s.wifi_packages.find? fun p => p.id == req.package_id) with
  | none => .error .packageNotFound
  | some package =>
    if package.is_active ≠ 1 then .error .packageNotFound
    else match findWalletByUser s uid with
    | none => .error .walletNotAvailable
    | some wallet =>
      if wallet.status ≠ .ACTIVE then .error .walletNotAvailable
      else if wallet.balance < package.price then .error .insufficientBalance
      else match idemHit s req.idempotency_key with
      | some existing =>
        let voucher := s.vouchers.find? fun v => v.transaction_id == some existing.id
        .ok ({ transaction_id := existing.id,
               voucher_id := voucher.map (·.id),
               voucher_code := voucher.map (·.voucher_code),
               already_processed := true, new_balance := none }, s)
      | none =>
        .ok ({ transaction_id := s.nextId,
               voucher_id := some (s.nextId + 1),
               voucher_code := some (vCode (s.nextId + 1)),
               already_processed := false,
               new_balance := some (wallet.balance - package.price) },
             wifiSuccState s uid package wallet req.idempotency_key)

/-- ElectricityPurchaseRequest (schemas/electricity.py), ledger-relevant fields. -/
structure ElecPurchaseRequest where
  package_id : Nat
  meter_id : Nat
  idempotency_key : Option String
deriving DecidableEq, Repr

/-- Response of purchase_electricity, covering both the fresh-purchase dict and
the already_processed short-circuit dict. -/
structure ElecPurchaseResult where
  transaction_id : Nat
  already_processed : Bool
  new_kwh_balance : Option ℚ
  new_wallet_balance : Option ℚ
deriving DecidableEq, Repr

/-- Successful-commit state of purchase_electricity (routers/electricity.py
lines 116-147): debit the wallet, bump the spend counters, insert the
COMPLETED PURCHASE transaction (amount = -price), credit the meter's
kwh_balance, and award loyalty points. -/
def elecSuccState (s : LedgerState) (uid : Nat) (package : ElectricityPackage)
    (meter : ElectricityMeter) (wallet : Wallet) (key : Option String) : LedgerState :=
  let txn : Txn :=
    { id := s.nextId, wallet_id := wallet.id, type := .PURCHASE,
      amount := -package.price, fee := 0,
      balance_before := wallet.balance, balance_after := wallet.balance - package.price,
      reference := txRef s.nextId, status := .COMPLETED,
      payment_method := some .WALLET, agent_id := none,
      idempotency_key := key, product_type := some .ELECTRICITY }
  { s with
    wallets := updateWalletById s.wallets wallet.id (debitWalletForPurchase package.price),
    txns := s.txns ++ [txn],
    meters := updateMeterById s.meters meter.id fun m =>
      { m with kwh_balance := m.kwh_balance + package.kwh_amount },
    users := updateUserById s.users uid fun u =>
      { u with loyalty_points := u.loyalty_points + (package.price / 10).floor },
    nextId := s.nextId + 1 }

/-- purchase_electricity (routers/electricity.py lines 46-157).  Check order
as in the source: package, meter (owned by the caller), tamper flag, wallet
availability, balance, idempotency short-circuit, then commit. -/
def purchase_electricity (s : LedgerState) (uid : Nat) (req : ElecPurchaseRequest) :
    Except ApiError (ElecPurchaseResult × LedgerState) :=
  match (s.elec_packages.find? fun p => p.id == req.package_id) with
  | none => .error .packageNotFound
  | some package =>
    if package.is_active ≠ 1 then .error .packageNotFound
    else match (s.meters.find? fun m => m.id == req.meter_id && m.user_id == uid) with
    | none => .error .meterNotFound
    | some meter =>
      if meter.status = .TAMPERED then .error .meterTampered
      else match findWalletByUser s uid with
      | none => .error .walletNotAvailable
      | some wallet =>
        if wallet.status ≠ .ACTIVE then .error .walletNotAvailable
        else if wallet.balance < package.price then .error .insufficientBalance
        else match idemHit s req.idempotency_key with
        | some existing =>
          .ok ({ transaction_id := existing.id, already_processed := true,
                 new_kwh_balance := none, new_wallet_balance := none }, s)
        | none =>
          .ok ({ transaction_id := s.nextId, already_processed := false,
                 new_kwh_balance := some (meter.kwh_balance + package.kwh_amount),
                 new_wallet_balance := some (wallet.balance - package.price) },
               elecSuccState s uid package meter wallet req.idempotency_key)

/-- TransferRequest (schemas/wallet.py), ledger-relevant fields. -/
structure TransferRequest where
  recipient_phone : String
  amount : ℚ
  idempotency_key : Option String
deriving DecidableEq, Repr

/-- Response of transfer_funds, covering both the fresh-transfer dict and the
already-exists short-circuit dict. -/
structure TransferResult where
  transaction_id : Nat
  reference : String
  already_processed : Bool
  new_balance : Option ℚ
deriving DecidableEq, Repr

/-- Successful-commit state of transfer_funds (routers/wallet.py lines
328-370): debit the sender (balance and spend counters), credit the
recipient, and insert the two COMPLETED TRANSFER legs sharing the
correlation reference, the recipient's suffixed with "-R". -/
def transferSuccState (s : LedgerState)
    (senderWallet recipientWallet : Wallet) (amount : ℚ)
    (key : Option String) : LedgerState :=
  let ref := txRef s.nextId
  let senderTxn : Txn :=
    { id := s.nextId, wallet_id := senderWallet.id, type := .TRANSFER,
      amount := -amount, fee := 0,
      balance_before := senderWallet.balance,
      balance_after := senderWallet.balance - amount,
      reference := ref, status := .COMPLETED,
      payment_method := some .WALLET, agent_id := none,
      idempotency_key := key, product_type := none }
  let recipientTxn : Txn :=
    { id := s.nextId + 1, wallet_id := recipientWallet.id, type := .TRANSFER,
      amount := amount, fee := 0,
      balance_before := recipientWallet.balance,
      balance_after := recipientWallet.balance + amount,
      reference := ref ++ "-R", status := .COMPLETED,
      payment_method := some .WALLET, agent_id := none,
      idempotency_key := none, product_type := none }
  { s with
    wallets := updateWalletById
      (updateWalletById s.wallets senderWallet.id fun w =>
        { w with balance := w.balance - amount,
                 daily_spent := w.daily_spent + amount,
                 monthly_spent := w.monthly_spent + amount })
      recipientWallet.id fun w => { w with balance := w.balance + amount },
    txns := s.txns ++ [senderTxn, recipientTxn],
    nextId := s.nextId + 2 }

/-- transfer_funds (routers/wallet.py lines 244-379).  Check order as in the
source: sender wallet availability, balance, daily limit, monthly limit,
recipient user, self-transfer, recipient wallet availability, idempotency
short-circuit, then the two-leg commit.  The sender's and recipient's phone
numbers only feed description strings in the source; the self-transfer check
compares user ids. -/
def transfer_funds (s : LedgerState) (uid : Nat)
    (req : TransferRequest) : Except ApiError (TransferResult × LedgerState) :=
  match findWalletByUser s uid with
  | none => .error .walletNotAvailable
  | some senderWallet =>
    if senderWallet.status ≠ .ACTIVE then .error .walletNotAvailable
    else if senderWallet.balance < req.amount then .error .insufficientBalance
    else if senderWallet.daily_spent + req.amount > senderWallet.daily_limit then
      .error .dailyLimitExceeded
    else if senderWallet.monthly_spent + req.amount > senderWallet.monthly_limit then
      .error .monthlyLimitExceeded
    else match findUserByPhone s req.recipient_phone with
    | none => .error .recipientNotFound
    | some recipient =>
      if recipient.id = uid then .error .selfTransferNotAllowed
      else match findWalletByUser s recipient.id with
      | none => .error .recipientWalletNotAvailable
      | some recipientWallet =>
        if recipientWallet.status ≠ .ACTIVE then .error .recipientWalletNotAvailable
        else match idemHit s req.idempotency_key with
        | some existing =>
          .ok ({ transaction_id := existing.id, reference := existing.reference,
                 already_processed := true, new_balance := none }, s)
        | none =>
          .ok ({ transaction_id := s.nextId, reference := txRef s.nextId,
                 already_processed := false,
                 new_balance := some (senderWallet.balance - req.amount) },
               transferSuccState s senderWallet recipientWallet
                 req.amount req.idempotency_key)

/-- The product_type string of an AgentTransaction request after .upper():
the handler accepts exactly "WIFI" and "ELECTRICITY" and rejects the rest. -/
inductive AgentProductType | WIFI | ELECTRICITY | OTHER
deriving DecidableEq, Repr

/-- AgentTransaction request (schemas/agent.py), ledger-relevant fields. -/
structure AgentTxRequest where
  customer_phone : String
  product_type : AgentProductType
  package_id : Nat
  meter_id : Option Nat
  cash_received : ℚ
  idempotency_key : Option String
deriving DecidableEq, Repr

/-- Response of process_transaction, covering the WIFI dict, the ELECTRICITY
dict, and the already_processed short-circuit dict. -/
structure AgentTxResult where
  transaction_id : Nat
  already_processed : Bool
  amount : Option ℚ
  commission_earned : Option ℚ
  new_float_balance : Option ℚ
  voucher_code : Option String
deriving DecidableEq, Repr

/-- Find-or-create of the customer in process_transaction (routers/agent.py
lines 190-221): an unknown phone gets a new User and a default (zero-balance)
Wallet and the agent's commission_balance is credited with the referral
bonus; a known phone without a wallet gets a default wallet and no bonus.
Returns the customer's id, the customer wallet row as loaded/created, and
the intermediate session state. -/
def findOrCreateCustomer (s : LedgerState) (agent : Agent) (phone : String) :
    Nat × Wallet × LedgerState :=
  match findUserByPhone s phone with
  | none =>
    let customer : User := { id := s.nextId, phone_number := phone, loyalty_points := 0 }
    let cwallet := Wallet.mkDefault (s.nextId + 1) customer.id
    ( customer.id, cwallet,
      { s with users := s.users ++ [customer],
               wallets := s.wallets ++ [cwallet],
               agents := updateAgentById s.agents agent.id fun a =>
                 { a with commission_balance := a.commission_balance + REFERRAL_BONUS_AMOUNT },
               nextId := s.nextId + 2 } )
  | some customer =>
    match findWalletByUser s customer.id with
    | some cwallet => (customer.id, cwallet, s)
    | none =>
      let cwallet := Wallet.mkDefault s.nextId customer.id
      ( customer.id, cwallet,
        { s with wallets := s.wallets ++ [cwallet], nextId := s.nextId + 1 } )

/-- The agent mutation every agent sale performs (routers/agent.py lines
253-260 and 354-361): debit the float, bump the sales counters, and credit
the commission computed from the row's tier rate. -/
def applySaleToAgent (price : ℚ) (a : Agent) : Agent :=
  { a with float_balance := a.float_balance - price,
           total_sales := a.total_sales + price,
           monthly_sales := a.monthly_sales + price,
           commission_balance := a.commission_balance + price * COMMISSION_RATES a.tier }

/-- Successful-commit state of the WIFI branch of process_transaction
(routers/agent.py lines 253-293), applied to the intermediate state after
find-or-create: debit the agent float, bump the sales counters, credit the
commission, insert the voucher (note: with NO transaction_id link), and
insert the COMPLETED PURCHASE transaction on the customer wallet with
amount = +price and balance_before = balance_after = that wallet's balance. -/
def agentWifiSuccState (s1 : LedgerState) (agent : Agent) (customerId : Nat)
    (cwallet : Wallet) (package : WiFiPackage) (key : Option String) : LedgerState :=
  let voucher : WiFiVoucher :=
    { id := s1.nextId, user_id := customerId, package_id := package.id,
      voucher_code := vCode s1.nextId, status := .UNUSED,
      data_limit_mb := package.data_limit_mb, validity_hours := package.validity_hours,
      transaction_id := none }
  let txn : Txn :=
    { id := s1.nextId + 1, wallet_id := cwallet.id, type := .PURCHASE,
      amount := package.price, fee := 0,
      balance_before := cwallet.balance, balance_after := cwallet.balance,
      reference := txRef (s1.nextId + 1), status := .COMPLETED,
      payment_method := some .AGENT, agent_id := some agent.id,
      idempotency_key := key, product_type := some .WIFI }
  { s1 with
    agents := updateAgentById s1.agents agent.id (applySaleToAgent package.price),
    vouchers := s1.vouchers ++ [voucher],
    txns := s1.txns ++ [txn],
    nextId := s1.nextId + 2 }

/-- Successful-commit state of the ELECTRICITY branch of process_transaction
(routers/agent.py lines 354-385): debit the agent float, bump the sales
counters, credit the commission, credit the meter's kwh_balance, and insert
the COMPLETED PURCHASE transaction on the customer wallet with
amount = +price and balance_before = balance_after. -/
def agentElecSuccState (s1 : LedgerState) (agent : Agent) (cwallet : Wallet)
    (package : ElectricityPackage) (meter : ElectricityMeter) (key : Option String) :
    LedgerState :=
  let txn : Txn :=
    { id := s1.nextId, wallet_id := cwallet.id, type := .PURCHASE,
      amount := package.price, fee := 0,
      balance_before := cwallet.balance, balance_after := cwallet.balance,
      reference := txRef s1.nextId, status := .COMPLETED,
      payment_method := some .AGENT, agent_id := some agent.id,
      idempotency_key := key, product_type := some .ELECTRICITY }
  { s1 with
    agents := updateAgentById s1.agents agent.id (applySaleToAgent package.price),
    meters := updateMeterById s1.meters meter.id fun m =>
      { m with kwh_balance := m.kwh_balance + package.kwh_amount },
    txns := s1.txns ++ [txn],
    nextId := s1.nextId + 1 }

/-- WIFI branch of process_transaction (routers/agent.py lines 224-305),
acting on the intermediate session state s1 of the find-or-create step:
package lookup and activity check, float check, cash check, then the
debit/commission/voucher/transaction commit. -/
def agentSaleWifiBranch (s1 : LedgerState) (agent : Agent) (customerId : Nat)
    (cwallet : Wallet) (packageId : Nat) (cash : ℚ) (key : Option String) :
    Except ApiError (AgentTxResult × LedgerState) :=
  match (s1.wifi_packages.find? fun p => p.id == packageId) with
  | none => .error .packageNotFound
  | some package =>
    if package.is_active ≠ 1 then .error .packageNotFound
    else if agent.float_balance < package.price then .error .insufficientFloat
    else if cash < package.price then .error .insufficientCash
    else
      .ok ({ transaction_id := s1.nextId + 1, already_processed := false,
             amount := some package.price,
             commission_earned := some (package.price * COMMISSION_RATES agent.tier),
             new_float_balance := some (agent.float_balance - package.price),
             voucher_code := some (vCode s1.nextId) },
           agentWifiSuccState s1 agent customerId cwallet package key)

/-- ELECTRICITY branch of process_transaction (routers/agent.py lines
307-399): package lookup, meter lookup (by id only), float check, cash
check, then the debit/commission/meter-credit/transaction commit. -/
def agentSaleElecBranch (s1 : LedgerState) (agent : Agent) (cwallet : Wallet)
    (packageId meterId : Nat) (cash : ℚ) (key : Option String) :
    Except ApiError (AgentTxResult × LedgerState) :=
  match (s1.elec_packages.find? fun p => p.id == packageId) with
  | none => .error .packageNotFound
  | some package =>
    if package.is_active ≠ 1 then .error .packageNotFound
    else match (s1.meters.find? fun m => m.id == meterId) with
    | none => .error .meterNotFound
    | some meter =>
      if agent.float_balance < package.price then .error .insufficientFloat
      else if cash < package.price then .error .insufficientCash
      else
        .ok ({ transaction_id := s1.nextId, already_processed := false,
               amount := some package.price,
               commission_earned := some (package.price * COMMISSION_RATES agent.tier),
               new_float_balance := some (agent.float_balance - package.price),
               voucher_code := none },
             agentElecSuccState s1 agent cwallet package meter key)

/-- process_transaction (routers/agent.py lines 170-405).  The
get_current_agent dependency (agent exists and is ACTIVE) runs first, then
the idempotency short-circuit, then find-or-create of the customer, then the
product branch with its own package/meter/float/cash checks.  An
HTTPException raised after the find-or-create rolls the whole session back,
so the error cases discard the intermediate state. -/
def process_transaction (s : LedgerState) (uid : Nat) (req : AgentTxRequest) :
    Except ApiError (AgentTxResult × LedgerState) :=
  match findAgentByUser s uid with
  | none => .error .notAnAgent
  | some agent =>
    if agent.status ≠ .ACTIVE then .error .agentNotActive
    else match idemHit s req.idempotency_key with
    | some existing =>
      .ok ({ transaction_id := existing.id, already_processed := true,
             amount := none, commission_earned := none,
             new_float_balance := none, voucher_code := none }, s)
    | none =>
      let foc := findOrCreateCustomer s agent req.customer_phone
      match req.product_type with
      | .WIFI =>
        agentSaleWifiBranch foc.2.2 agent foc.1 foc.2.1 req.package_id
          req.cash_received req.idempotency_key
      | .ELECTRICITY =>
        match req.meter_id with
        | none => .error .meterIdRequired
        | some meterId =>
          agentSaleElecBranch foc.2.2 agent foc.2.1 req.package_id meterId
            req.cash_received req.idempotency_key
      | .OTHER => .error .invalidProductType

/-- Withdrawal method of CommissionWithdraw: the handler compares the string
against "WALLET" and treats every other value as the bank path. -/
inductive WithdrawalMethod | WALLET | BANK
deriving DecidableEq, Repr

/-- CommissionWithdraw request (schemas/agent.py), ledger-relevant fields. -/
structure WithdrawRequest where
  amount : ℚ
  method : WithdrawalMethod
deriving DecidableEq, Repr

/-- Response of withdraw_commission (both branches). -/
structure WithdrawResult where
  amount : ℚ
  new_commission_balance : ℚ
  new_wallet_balance : Option ℚ
deriving DecidableEq, Repr

/-- Successful-commit state of the WALLET branch of withdraw_commission
(routers/agent.py lines 464-497): debit the commission balance, credit the
agent-user's wallet, and insert a COMPLETED COMMISSION transaction whose
before/after snapshots are written as (new balance - amount, new balance). -/
def withdrawWalletSuccState (s : LedgerState) (agent : Agent) (wallet : Wallet)
    (amount : ℚ) : LedgerState :=
  let newBal := wallet.balance + amount
  let txn : Txn :=
    { id := s.nextId, wallet_id := wallet.id, type := .COMMISSION,
      amount := amount, fee := 0,
      balance_before := newBal - amount, balance_after := newBal,
      reference := txRef s.nextId, status := .COMPLETED,
      payment_method := some .WALLET, agent_id := none,
      idempotency_key := none, product_type := none }
  { s with
    agents := updateAgentById s.agents agent.id fun a =>
      { a with commission_balance := a.commission_balance - amount },
    wallets := updateWalletById s.wallets wallet.id fun w =>
      { w with balance := w.balance + amount },
    txns := s.txns ++ [txn],
    nextId := s.nextId + 1 }

/-- Successful-commit state of the BANK branch of withdraw_commission
(routers/agent.py lines 506-516): the commission balance is debited and the
session committed; NO transaction row is inserted and no wallet is touched. -/
def withdrawBankSuccState (s : LedgerState) (agent : Agent) (amount : ℚ) : LedgerState :=
  { s with
    agents := updateAgentById s.agents agent.id fun a =>
      { a with commission_balance := a.commission_balance - amount } }

/-- withdraw_commission (routers/agent.py lines 448-516).  The
get_current_agent dependency runs first, then the commission-balance check,
then the method branch (WALLET needs the user's wallet to exist). -/
def withdraw_commission (s : LedgerState) (uid : Nat) (req : WithdrawRequest) :
    Except ApiError (WithdrawResult × LedgerState) :=
  match findAgentByUser s uid with
  | none => .error .notAnAgent
  | some agent =>
    if agent.status ≠ .ACTIVE then .error .agentNotActive
    else if req.amount > agent.commission_balance then .error .insufficientCommission
    else match req.method with
    | .WALLET =>
      match findWalletByUser s uid with
      | none => .error .walletNotFound
      | some wallet =>
        .ok ({ amount := req.amount,
               new_commission_balance := agent.commission_balance - req.amount,
               new_wallet_balance := some (wallet.balance + req.amount) },
             withdrawWalletSuccState s agent wallet req.amount)
    | .BANK =>
      .ok ({ amount := req.amount,
             new_commission_balance := agent.commission_balance - req.amount,
             new_wallet_balance := none },
           withdrawBankSuccState s agent req.amount)

/-- TopupRequest (schemas/wallet.py), ledger-relevant fields.  The payment
method string only tags the PENDING row. -/
structure TopupRequest where
  amount : ℚ
  payment_method : PaymentMethod
  idempotency_key : Option String
deriving DecidableEq, Repr

/-- Response of initiate_topup (fresh dict and already-exists dict). -/
structure TopupResult where
  transaction_id : Nat
  already_processed : Bool
deriving DecidableEq, Repr

/-- initiate_topup (routers/wallet.py lines 65-130): wallet availability,
idempotency short-circuit, then insertion of a PENDING TOPUP transaction
whose balance_after still equals balance_before (updated only by the
gateway callback); no balance is mutated here. -/
def initiate_topup (s : LedgerState) (uid : Nat) (req : TopupRequest) :
    Except ApiError (TopupResult × LedgerState) :=
  match findWalletByUser s uid with
  | none => .error .walletNotFound
  | some wallet =>
    if wallet.status ≠ .ACTIVE then .error .walletNotAvailable
    else match idemHit s req.idempotency_key with
    | some existing =>
      .ok ({ transaction_id := existing.id, already_processed := true }, s)
    | none =>
      let txn : Txn :=
        { id := s.nextId, wallet_id := wallet.id, type := .TOPUP,
          amount := req.amount, fee := 0,
          balance_before := wallet.balance, balance_after := wallet.balance,
          reference := txRef s.nextId, status := .PENDING,
          payment_method := some req.payment_method, agent_id := none,
          idempotency_key := req.idempotency_key, product_type := none }
      .ok ({ transaction_id := s.nextId, already_processed := false },
           { s with txns := s.txns ++ [txn], nextId := s.nextId + 1 })

/-- Committed state of a handler call: the new state on success, the rolled
back (unchanged) state when an HTTPException was raised. -/
def runState (s : LedgerState) (r : Except ApiError (α × LedgerState)) : LedgerState :=
  match r with
  | .ok (_, s') => s'
  | .error _ => s

/-- The typed error of a handler call, none on success. -/
def runError (r : Except ApiError (α × LedgerState)) : Option ApiError :=
  match r with
  | .ok _ => none
  | .error e => some e

/-- The response of a handler call, none on error. -/
def runResult (r : Except ApiError (α × LedgerState)) : Option α :=
  match r with
  | .ok (a, _) => some a
  | .error _ => none

/-- One client request against the ledger engine: the five ledger-mutating
operations of the settlement core (C2's enumeration: wallet purchase,
transfer leg, agent sale, commission withdrawal). -/
inductive Op
  | wifi (uid : Nat) (req : WiFiPurchaseRequest)
  | elec (uid : Nat) (req : ElecPurchaseRequest)
  | transfer (uid : Nat) (req : TransferRequest)
  | agentSale (uid : Nat) (req : AgentTxRequest)
  | withdraw (uid : Nat) (req : WithdrawRequest)

/-- Sequential small-step semantics: the committed state after serving one
request (errors roll back). -/
def step (s : LedgerState) : Op → LedgerState
  | .wifi uid req => runState s (purchase_wifi s uid req)
  | .elec uid req => runState s (purchase_electricity s uid req)
  | .transfer uid req => runState s (transfer_funds s uid req)
  | .agentSale uid req => runState s (process_transaction s uid req)
  | .withdraw uid req => runState s (withdraw_commission s uid req)

/-- Committed states reachable from s0 by serving any sequence of requests. -/
inductive Reachable (s0 : LedgerState) : LedgerState → Prop
  | refl : Reachable s0 s0
  | tail {s : LedgerState} (op : Op) : Reachable s0 s → Reachable s0 (step s op)

/-- SELECT Wallet WHERE id = i (primary-key lookup, for observing a row). -/
def findWalletById (ws : List Wallet) (i : Nat) : Option Wallet :=
  ws.find? fun w => w.id == i

/-- SELECT Agent WHERE id = i (primary-key lookup, for observing a row). -/
def findAgentById (as_ : List Agent) (i : Nat) : Option Agent :=
  as_.find? fun a => a.id == i

/-- Number of vouchers linked (via transaction_id) to the transaction i. -/
def countLinked (vs : List WiFiVoucher) (i : Nat) : Nat :=
  (vs.filter fun v => v.transaction_id == some i).length

/-! Concrete scenario fixtures used by the spec's worked examples. -/

/-- A customer with an active wallet (spec scenarios, §8). -/
def demoUser : User := { id := 100, phone_number := "0821110000", loyalty_points := 0 }

/-- Wallet A of the scenarios: balance 100.00, ACTIVE, default limits. -/
def demoWallet : Wallet :=
  { id := 10, user_id := 100, balance := 100, status := .ACTIVE,
    daily_limit := 5000, monthly_limit := 50000, daily_spent := 0, monthly_spent := 0 }

/-- An active WiFi package priced 25.00. -/
def demoWifiPkg : WiFiPackage :=
  { id := 1, price := 25, data_limit_mb := 1024, validity_hours := 24, is_active := 1 }

/-- Scenario state for the WiFi purchase examples. -/
def sPurchase : LedgerState :=
  { users := [demoUser], wallets := [demoWallet], agents := [],
    wifi_packages := [demoWifiPkg], elec_packages := [], meters := [],
    txns := [], vouchers := [], nextId := 50 }

/-- Wallet with balance 10.00 only (failure scenario of §8). -/
def poorWallet : Wallet :=
  { id := 11, user_id := 101, balance := 10, status := .ACTIVE,
    daily_limit := 5000, monthly_limit := 50000, daily_spent := 0, monthly_spent := 0 }

/-- Scenario state: balance 10.00, package priced 25.00. -/
def sPoor : LedgerState :=
  { users := [{ id := 101, phone_number := "0821110001", loyalty_points := 0 }],
    wallets := [poorWallet], agents := [],
    wifi_packages := [demoWifiPkg], elec_packages := [], meters := [],
    txns := [], vouchers := [], nextId := 50 }

/-- Recipient user of the transfer scenario. -/
def userB : User := { id := 102, phone_number := "0823330000", loyalty_points := 0 }

/-- Wallet B of the transfer scenario: balance 20.00, ACTIVE. -/
def walletB : Wallet :=
  { id := 12, user_id := 102, balance := 20, status := .ACTIVE,
    daily_limit := 5000, monthly_limit := 50000, daily_spent := 0, monthly_spent := 0 }

/-- Transfer scenario state: wallet A (100.00) and wallet B (20.00), both ACTIVE. -/
def sTransfer : LedgerState :=
  { users := [demoUser, userB], wallets := [demoWallet, walletB], agents := [],
    wifi_packages := [], elec_packages := [], meters := [],
    txns := [], vouchers := [], nextId := 60 }

/-- Same scenario but with wallet B soft-closed. -/
def sTransferClosed : LedgerState :=
  { users := [demoUser, userB], wallets := [demoWallet, { walletB with status := .CLOSED }],
    agents := [], wifi_packages := [], elec_packages := [], meters := [],
    txns := [], vouchers := [], nextId := 60 }

/-- A COMPLETED purchase transaction carrying idempotency key "K". -/
def keyTxn : Txn :=
  { id := 40, wallet_id := 10, type := .PURCHASE, amount := -25, fee := 0,
    balance_before := 25, balance_after := 0, reference := "TXN40", status := .COMPLETED,
    payment_method := some .WALLET, agent_id := none, idempotency_key := some "K",
    product_type := some .WIFI }

/-- The voucher issued by keyTxn. -/
def keyVoucher : WiFiVoucher :=
  { id := 41, user_id := 100, package_id := 1, voucher_code := "VC41", status := .UNUSED,
    data_limit_mb := 1024, validity_hours := 24, transaction_id := some 40 }

/-- Replay scenario: the original purchase with key "K" completed and drained
the wallet to 0.00; the client now retries the same request. -/
def sReplay : LedgerState :=
  { users := [demoUser], wallets := [{ demoWallet with balance := 0 }], agents := [],
    wifi_packages := [demoWifiPkg], elec_packages := [], meters := [],
    txns := [keyTxn], vouchers := [keyVoucher], nextId := 42 }

/-- Wallet with nearly exhausted spend limits: daily 90/100, monthly 90/100,
but a healthy balance. -/
def limitWallet : Wallet :=
  { id := 13, user_id := 103, balance := 200, status := .ACTIVE,
    daily_limit := 100, monthly_limit := 100, daily_spent := 90, monthly_spent := 90 }

/-- An active electricity package priced 25.00 for 20 kWh. -/
def demoElecPkg : ElectricityPackage := { id := 5, price := 25, kwh_amount := 20, is_active := 1 }

/-- Meter of user 103. -/
def demoMeter : ElectricityMeter := { id := 7, user_id := 103, kwh_balance := 0, status := .ON }

/-- Scenario state for the spend-limit claims. -/
def sLimit : LedgerState :=
  { users := [{ id := 103, phone_number := "0824440000", loyalty_points := 0 }],
    wallets := [limitWallet], agents := [],
    wifi_packages := [demoWifiPkg], elec_packages := [demoElecPkg], meters := [demoMeter],
    txns := [], vouchers := [], nextId := 70 }

/-- The agent's user account. -/
def agentUser : User := { id := 200, phone_number := "0829990000", loyalty_points := 0 }

/-- A SILVER-tier agent with float 200.00 and no commission yet. -/
def demoAgent : Agent :=
  { id := 20, user_id := 200, tier := .SILVER, status := .ACTIVE,
    float_balance := 200, commission_balance := 0, total_sales := 0, monthly_sales := 0 }

/-- An already-registered customer of the agent scenario. -/
def customerUser : User := { id := 300, phone_number := "0827770000", loyalty_points := 0 }

/-- The registered customer's (empty) wallet. -/
def customerWallet : Wallet := Wallet.mkDefault 30 300

/-- An active WiFi package priced 50.00 sold by the agent. -/
def agentWifiPkg : WiFiPackage :=
  { id := 2, price := 50, data_limit_mb := 2048, validity_hours := 48, is_active := 1 }

/-- Agent-sale scenario state. -/
def sAgent : LedgerState :=
  { users := [agentUser, customerUser], wallets := [customerWallet], agents := [demoAgent],
    wifi_packages := [agentWifiPkg], elec_packages := [], meters := [],
    txns := [], vouchers := [], nextId := 80 }

/-- The agent sale request for an unknown customer phone. -/
def newPhoneSaleReq : AgentTxRequest :=
  { customer_phone := "0828880000", product_type := .WIFI, package_id := 2,
    meter_id := none, cash_received := 50, idempotency_key := none }

/-- The agent sale request for the registered customer. -/
def knownPhoneSaleReq : AgentTxRequest :=
  { customer_phone := "0827770000", product_type := .WIFI, package_id := 2,
    meter_id := none, cash_received := 50, idempotency_key := none }

/-- An active electricity package priced 50.00 for 40 kWh sold by the agent. -/
def agentElecPkg : ElectricityPackage :=
  { id := 6, price := 50, kwh_amount := 40, is_active := 1 }

/-- The registered customer's electricity meter. -/
def agentMeter : ElectricityMeter := { id := 8, user_id := 300, kwh_balance := 0, status := .ON }

/-- Agent-sale scenario state for electricity sales. -/
def sAgentElec : LedgerState :=
  { users := [agentUser, customerUser], wallets := [customerWallet], agents := [demoAgent],
    wifi_packages := [], elec_packages := [agentElecPkg], meters := [agentMeter],
    txns := [], vouchers := [], nextId := 85 }

/-- The electricity agent sale request for the registered customer. -/
def elecKnownSaleReq : AgentTxRequest :=
  { customer_phone := "0827770000", product_type := .ELECTRICITY, package_id := 6,
    meter_id := some 8, cash_received := 50, idempotency_key := none }

/-- The electricity agent sale request for an unknown customer phone. -/
def elecNewSaleReq : AgentTxRequest :=
  { customer_phone := "0828880000", product_type := .ELECTRICITY, package_id := 6,
    meter_id := some 8, cash_received := 50, idempotency_key := none }

/-- A BRONZE agent with commission balance 100.00. -/
def richAgent : Agent :=
  { id := 21, user_id := 201, tier := .BRONZE, status := .ACTIVE,
    float_balance := 0, commission_balance := 100, total_sales := 0, monthly_sales := 0 }

/-- Withdrawal scenario state. -/
def sWithdraw : LedgerState :=
  { users := [{ id := 201, phone_number := "0825550000", loyalty_points := 0 }],
    wallets := [{ id := 14, user_id := 201, balance := 40, status := .ACTIVE,
                  daily_limit := 5000, monthly_limit := 50000,
                  daily_spent := 0, monthly_spent := 0 }],
    agents := [richAgent], wifi_packages := [], elec_packages := [], meters := [],
    txns := [], vouchers := [], nextId := 90 }

/-- The delta law the ledger actually maintains on every transaction row:
rows not written by an agent sale snapshot balance_before/after exactly
amount apart; agent-sale rows (payment_method AGENT) are written with
balance_after = balance_before. -/
def DeltaInv (s : LedgerState) : Prop :=
  ∀ t ∈ s.txns,
    (t.payment_method ≠ some .AGENT → t.balance_after - t.balance_before = t.amount)
      ∧ (t.payment_method = some .AGENT → t.balance_after = t.balance_before)

/-- The claim's universal delta law: balance_after - balance_before = amount
for every committed transaction row. -/
def DeltaLawAll (s : LedgerState) : Prop :=
  ∀ t ∈ s.txns, t.balance_after - t.balance_before = t.amount

/-- All ids written so far are below the fresh-id counter. -/
def IdBound (s : LedgerState) : Prop :=
  (∀ t ∈ s.txns, t.id < s.nextId)
    ∧ (∀ v ∈ s.vouchers, ∀ j, v.transaction_id = some j → j < s.nextId)

/-- The voucher-transaction linkage the code actually maintains: every
wallet-funded WiFi purchase transaction has exactly one voucher linked to
it, and every voucher that carries a transaction_id link points at an
existing COMPLETED PURCHASE transaction. -/
def LinkInv (s : LedgerState) : Prop :=
  (∀ t ∈ s.txns, t.payment_method = some .WALLET → t.product_type = some .WIFI →
      t.type = .PURCHASE → countLinked s.vouchers t.id = 1)
    ∧ (∀ v ∈ s.vouchers, ∀ j, v.transaction_id = some j →
        ∃ t ∈ s.txns, t.id = j ∧ t.status = .COMPLETED ∧ t.type = .PURCHASE)

/-- The inductive bundle for the C1 analysis. -/
def GoodState (s : LedgerState) : Prop := IdBound s ∧ LinkInv s

/-- The claim's 1:1 credit law: every COMPLETED PURCHASE transaction has
exactly one voucher linked to it via transaction_id. -/
def PurchaseCreditLinked (s : LedgerState) : Prop :=
  ∀ t ∈ s.txns, t.type = .PURCHASE → t.status = .COMPLETED →
    countLinked s.vouchers t.id = 1

/-- C5: for a wallet with balance 100.00 and an active package priced 25.00,
a WiFi purchase succeeds with new balance 75.00, creates exactly one
Transaction with amount -25.00, balance_before 100.00, balance_after 75.00,
status COMPLETED, and exactly one UNUSED voucher whose transaction_id
references that Transaction. -/
theorem C5_wifi_purchase_scenario :
    runError (purchase_wifi sPurchase 100 { package_id := 1, idempotency_key := none }) = none
    ∧ (runResult (purchase_wifi sPurchase 100 { package_id := 1, idempotency_key := none })).map
        (·.new_balance) = some (some 75)
    ∧ (findWalletByUser
        (runState sPurchase (purchase_wifi sPurchase 100 { package_id := 1, idempotency_key := none }))
        100).map Wallet.balance = some 75
    ∧ (runState sPurchase (purchase_wifi sPurchase 100 { package_id := 1, idempotency_key := none })).txns.length = 1
    ∧ (∀ t ∈ (runState sPurchase (purchase_wifi sPurchase 100 { package_id := 1, idempotency_key := none })).txns,
        t.amount = -25 ∧ t.balance_before = 100 ∧ t.balance_after = 75
          ∧ t.status = .COMPLETED ∧ t.type = .PURCHASE)
    ∧ (runState sPurchase (purchase_wifi sPurchase 100 { package_id := 1, idempotency_key := none })).vouchers.length = 1
    ∧ (∀ v ∈ (runState sPurchase (purchase_wifi sPurchase 100 { package_id := 1, idempotency_key := none })).vouchers,
        v.status = .UNUSED
          ∧ ∀ t ∈ (runState sPurchase (purchase_wifi sPurchase 100 { package_id := 1, idempotency_key := none })).txns,
              v.transaction_id = some t.id) := by
  norm_num [purchase_wifi, sPurchase, demoUser, demoWallet, demoWifiPkg, findWalletByUser,
    idemHit, wifiSuccState, runState, runError, runResult, findTxnByKey, debitWalletForPurchase,
    updateWalletById, updateUserById, txRef, vCode]

/-- C3: a wallet purchase (WiFi or electricity) by an active wallet whose
balance is strictly below the package price fails with the
insufficient-balance error and leaves the committed state unchanged: the
wallet balance is untouched and no Transaction row is created. -/
theorem C3_insufficient_funds_rejects
    (s : LedgerState) (uid : Nat) (wallet : Wallet)
    (hw : findWalletByUser s uid = some wallet)
    (hact : wallet.status = .ACTIVE) :
    (∀ (req : WiFiPurchaseRequest) (package : WiFiPackage),
        s.wifi_packages.find? (fun p => p.id == req.package_id) = some package →
        package.is_active = 1 →
        wallet.balance < package.price →
        purchase_wifi s uid req = .error .insufficientBalance
          ∧ runState s (purchase_wifi s uid req) = s)
    ∧ (∀ (req : ElecPurchaseRequest) (package : ElectricityPackage) (meter : ElectricityMeter),
        s.elec_packages.find? (fun p => p.id == req.package_id) = some package →
        package.is_active = 1 →
        s.meters.find? (fun m => m.id == req.meter_id && m.user_id == uid) = some meter →
        meter.status ≠ .TAMPERED →
        wallet.balance < package.price →
        purchase_electricity s uid req = .error .insufficientBalance
          ∧ runState s (purchase_electricity s uid req) = s) := by
  constructor
  · intro req package hfind hactive hlt
    have h : purchase_wifi s uid req = .error .insufficientBalance := by
      simp only [purchase_wifi, hfind, hw, hactive, hact, hlt]
      simp
    exact ⟨h, by simp [runState, h]⟩
  · intro req package meter hfind hactive hm hnt hlt
    have h : purchase_electricity s uid req = .error .insufficientBalance := by
      simp only [purchase_electricity, hfind, hm, hw, hactive, hact, hlt, hnt]
      simp
    exact ⟨h, by simp [runState, h]⟩

/-- Witness for C3: wallet balance 10.00, package price 25.00 — the purchase
fails with the insufficient-balance error and the state is unchanged. -/
theorem C3_insufficient_funds_rejects_witness :
    purchase_wifi sPoor 101 { package_id := 1, idempotency_key := none }
      = .error .insufficientBalance
    ∧ runState sPoor (purchase_wifi sPoor 101 { package_id := 1, idempotency_key := none }) = sPoor :=
  (C3_insufficient_funds_rejects sPoor 101 poorWallet
      (by simp [findWalletByUser, sPoor, poorWallet]) rfl).1
    { package_id := 1, idempotency_key := none } demoWifiPkg
    (by simp [sPoor, demoWifiPkg]) rfl (by norm_num [poorWallet, demoWifiPkg])

/-- C7: a 30.00 transfer from wallet A (100.00, ACTIVE) to wallet B (20.00,
ACTIVE) leaves A at 70.00 and B at 50.00 and creates exactly two COMPLETED
TRANSFER rows, the sender leg with amount -30.00 (100.00 to 70.00) and the
receiver leg with amount +30.00 (20.00 to 50.00), the receiver's reference
being the sender's reference suffixed with "-R"; against a CLOSED recipient
wallet the transfer fails with the recipient-wallet-unavailable error and
the committed state — in particular both balances — is unchanged. -/
theorem C7_transfer_scenario :
    runError (transfer_funds sTransfer 100 { recipient_phone := "0823330000", amount := 30, idempotency_key := none }) = none
    ∧ (findWalletById (runState sTransfer (transfer_funds sTransfer 100 { recipient_phone := "0823330000", amount := 30, idempotency_key := none })).wallets 10).map Wallet.balance = some 70
    ∧ (findWalletById (runState sTransfer (transfer_funds sTransfer 100 { recipient_phone := "0823330000", amount := 30, idempotency_key := none })).wallets 12).map Wallet.balance = some 50
    ∧ (runState sTransfer (transfer_funds sTransfer 100 { recipient_phone := "0823330000", amount := 30, idempotency_key := none })).txns.length = 2
    ∧ ((runState sTransfer (transfer_funds sTransfer 100 { recipient_phone := "0823330000", amount := 30, idempotency_key := none })).txns[0]?).map
        (fun t => (t.wallet_id, t.type, t.status, t.amount, t.balance_before, t.balance_after))
        = some (10, .TRANSFER, .COMPLETED, (-30 : ℚ), (100 : ℚ), (70 : ℚ))
    ∧ ((runState sTransfer (transfer_funds sTransfer 100 { recipient_phone := "0823330000", amount := 30, idempotency_key := none })).txns[1]?).map
        (fun t => (t.wallet_id, t.type, t.status, t.amount, t.balance_before, t.balance_after))
        = some (12, .TRANSFER, .COMPLETED, (30 : ℚ), (20 : ℚ), (50 : ℚ))
    ∧ ((runState sTransfer (transfer_funds sTransfer 100 { recipient_phone := "0823330000", amount := 30, idempotency_key := none })).txns[0]?).map
        (fun t => t.reference ++ "-R")
        = ((runState sTransfer (transfer_funds sTransfer 100 { recipient_phone := "0823330000", amount := 30, idempotency_key := none })).txns[1]?).map Txn.reference
    ∧ transfer_funds sTransferClosed 100 { recipient_phone := "0823330000", amount := 30, idempotency_key := none }
        = .error .recipientWalletNotAvailable
    ∧ runState sTransferClosed (transfer_funds sTransferClosed 100 { recipient_phone := "0823330000", amount := 30, idempotency_key := none })
        = sTransferClosed := by
  norm_num +decide [transfer_funds, transferSuccState, sTransfer, sTransferClosed, demoUser,
    demoWallet, userB, walletB, findWalletByUser, findUserByPhone, findWalletById, idemHit,
    findTxnByKey, runState, runError, updateWalletById, txRef]

/-- Counterexample to C4 as stated: the state holds a COMPLETED transaction
with idempotency key "K", yet replaying the purchase with key "K" does not
return that transaction's outcome — the handler re-runs the balance check
first and fails with the insufficient-balance error (routers/wifi.py checks
balance at lines 77-82 before the idempotency lookup at lines 84-101). -/
theorem C4_replay_counterexample :
    (∃ t ∈ sReplay.txns, t.idempotency_key = some "K" ∧ t.status = .COMPLETED)
    ∧ purchase_wifi sReplay 100 { package_id := 1, idempotency_key := some "K" }
        = .error .insufficientBalance := by
  constructor
  · exact ⟨keyTxn, by simp [sReplay], rfl, rfl⟩
  · norm_num +decide [purchase_wifi, sReplay, demoUser, demoWallet, demoWifiPkg,
      findWalletByUser, idemHit, findTxnByKey, keyTxn, keyVoucher]

/-- C4 amended: a request whose idempotency key is already carried by some
transaction never mutates the committed state — every handler either fails a
validation check (rolling back) or short-circuits at the idempotency lookup;
and whenever such a replay does succeed, its response is the
already-processed echo of the stored transaction.  (As stated the claim is
false: a replay is not guaranteed to return the original outcome, because
wifi/electricity/transfer run their validation checks before the
idempotency lookup — see the counterexample.) -/
theorem C4_replay_never_mutates
    (s : LedgerState) (k : String)
    (hk : ∃ t ∈ s.txns, t.idempotency_key = some k) :
    (∀ (uid : Nat) (req : WiFiPurchaseRequest), req.idempotency_key = some k →
        runState s (purchase_wifi s uid req) = s
          ∧ ∀ r s', purchase_wifi s uid req = .ok (r, s') →
              r.already_processed = true
                ∧ ∃ t ∈ s.txns, t.idempotency_key = some k ∧ r.transaction_id = t.id)
    ∧ (∀ (uid : Nat) (req : ElecPurchaseRequest), req.idempotency_key = some k →
        runState s (purchase_electricity s uid req) = s
          ∧ ∀ r s', purchase_electricity s uid req = .ok (r, s') →
              r.already_processed = true
                ∧ ∃ t ∈ s.txns, t.idempotency_key = some k ∧ r.transaction_id = t.id)
    ∧ (∀ (uid : Nat) (req : TransferRequest), req.idempotency_key = some k →
        runState s (transfer_funds s uid req) = s
          ∧ ∀ r s', transfer_funds s uid req = .ok (r, s') →
              r.already_processed = true
                ∧ ∃ t ∈ s.txns, t.idempotency_key = some k ∧ r.transaction_id = t.id)
    ∧ (∀ (uid : Nat) (req : AgentTxRequest), req.idempotency_key = some k →
        runState s (process_transaction s uid req) = s
          ∧ ∀ r s', process_transaction s uid req = .ok (r, s') →
              r.already_processed = true
                ∧ ∃ t ∈ s.txns, t.idempotency_key = some k ∧ r.transaction_id = t.id)
    ∧ (∀ (uid : Nat) (req : TopupRequest), req.idempotency_key = some k →
        runState s (initiate_topup s uid req) = s
          ∧ ∀ r s', initiate_topup s uid req = .ok (r, s') →
              r.already_processed = true
                ∧ ∃ t ∈ s.txns, t.idempotency_key = some k ∧ r.transaction_id = t.id) := by
  have hsome : (s.txns.find? fun t => t.idempotency_key == some k).isSome := by
    rw [List.find?_isSome]
    obtain ⟨t, ht, hk2⟩ := hk
    exact ⟨t, ht, by simp [hk2]⟩
  obtain ⟨t0, ht0⟩ := Option.isSome_iff_exists.mp hsome
  have hmem : t0 ∈ s.txns := List.mem_of_find?_eq_some ht0
  have hkey : t0.idempotency_key = some k := by
    have := List.find?_some ht0
    simpa using this
  have hhit : ∀ key : Option String, key = some k → idemHit s key = some t0 := by
    intro key hkeq
    rw [hkeq]
    simpa [idemHit, findTxnByKey] using ht0
  refine ⟨?_, ?_, ?_, ?_, ?_⟩
  · intro uid req hreq
    have hh := hhit req.idempotency_key hreq
    constructor
    · unfold purchase_wifi
      repeat' split
      all_goals simp_all [runState]
    · intro r s' h
      unfold purchase_wifi at h
      repeat' split at h
      all_goals try exact Except.noConfusion h
      · rename_i existing heq
        rw [hh] at heq
        injection heq with hex
        subst hex
        simp only [Except.ok.injEq, Prod.mk.injEq] at h
        obtain ⟨hr, hs⟩ := h
        subst hr
        subst hs
        exact ⟨rfl, t0, hmem, hkey, rfl⟩
      · simp_all
  · intro uid req hreq
    have hh := hhit req.idempotency_key hreq
    constructor
    · unfold purchase_electricity
      repeat' split
      all_goals simp_all [runState]
    · intro r s' h
      unfold purchase_electricity at h
      repeat' split at h
      all_goals try exact Except.noConfusion h
      · rename_i existing heq
        rw [hh] at heq
        injection heq with hex
        subst hex
        simp only [Except.ok.injEq, Prod.mk.injEq] at h
        obtain ⟨hr, hs⟩ := h
        subst hr
        subst hs
        exact ⟨rfl, t0, hmem, hkey, rfl⟩
      all_goals simp_all
  · intro uid req hreq
    have hh := hhit req.idempotency_key hreq
    constructor
    · unfold transfer_funds
      repeat' split
      all_goals simp_all [runState]
    · intro r s' h
      unfold transfer_funds at h
      repeat' split at h
      all_goals try exact Except.noConfusion h
      · rename_i existing heq
        rw [hh] at heq
        injection heq with hex
        subst hex
        simp only [Except.ok.injEq, Prod.mk.injEq] at h
        obtain ⟨hr, hs⟩ := h
        subst hr
        subst hs
        exact ⟨rfl, t0, hmem, hkey, rfl⟩
      all_goals simp_all
  · intro uid req hreq
    have hh := hhit req.idempotency_key hreq
    constructor
    · unfold process_transaction
      repeat' split
      all_goals simp_all [runState]
    · intro r s' h
      unfold process_transaction at h
      repeat' split at h
      all_goals try exact Except.noConfusion h
      · rename_i existing heq
        rw [hh] at heq
        injection heq with hex
        subst hex
        simp only [Except.ok.injEq, Prod.mk.injEq] at h
        obtain ⟨hr, hs⟩ := h
        subst hr
        subst hs
        exact ⟨rfl, t0, hmem, hkey, rfl⟩
      all_goals simp_all
  · intro uid req hreq
    have hh := hhit req.idempotency_key hreq
    constructor
    · unfold initiate_topup
      repeat' split
      all_goals simp_all [runState]
    · intro r s' h
      unfold initiate_topup at h
      repeat' split at h
      all_goals try exact Except.noConfusion h
      · rename_i existing heq
        rw [hh] at heq
        injection heq with hex
        subst hex
        simp only [Except.ok.injEq, Prod.mk.injEq] at h
        obtain ⟨hr, hs⟩ := h
        subst hr
        subst hs
        exact ⟨rfl, t0, hmem, hkey, rfl⟩
      all_goals simp_all

/-- Witness for C4 amended: replaying the WiFi purchase with the used key "K"
leaves the committed state unchanged. -/
theorem C4_replay_never_mutates_witness :
    runState sReplay (purchase_wifi sReplay 100 { package_id := 1, idempotency_key := some "K" })
      = sReplay :=
  ((C4_replay_never_mutates sReplay "K" ⟨keyTxn, by simp [sReplay], rfl⟩).1
    100 { package_id := 1, idempotency_key := some "K" } rfl).1

/-- Observing an id-keyed in-place update: if the row with id i is found
before the update, the same lookup after the update returns the updated row
(updates in this development never change the id). -/
theorem findWalletById_updateWalletById (ws : List Wallet) (i : Nat) (f : Wallet → Wallet)
    (hf : ∀ w, (f w).id = w.id) (w0 : Wallet) (h : findWalletById ws i = some w0) :
    findWalletById (updateWalletById ws i f) i = some (f w0) := by
  unfold findWalletById updateWalletById
  unfold findWalletById at h
  rw [List.find?_map]
  have hpred : ((fun w : Wallet => w.id == i) ∘ fun w => if w.id = i then f w else w)
      = fun w : Wallet => w.id == i := by
    funext w
    by_cases hw : w.id = i
    · simp [hw, hf]
    · simp [hw]
  rw [hpred, h]
  have hid : w0.id = i := by simpa using List.find?_some h
  simp [hid]

/-- The agent-row analogue of findWalletById_updateWalletById. -/
theorem findAgentById_updateAgentById (as_ : List Agent) (i : Nat) (f : Agent → Agent)
    (hf : ∀ a, (f a).id = a.id) (a0 : Agent) (h : findAgentById as_ i = some a0) :
    findAgentById (updateAgentById as_ i f) i = some (f a0) := by
  unfold findAgentById updateAgentById
  unfold findAgentById at h
  rw [List.find?_map]
  have hpred : ((fun a : Agent => a.id == i) ∘ fun a => if a.id = i then f a else a)
      = fun a : Agent => a.id == i := by
    funext a
    by_cases ha : a.id = i
    · simp [ha, hf]
    · simp [ha]
  rw [hpred, h]
  have hid : a0.id = i := by simpa using List.find?_some h
  simp [hid]

/-- C10: wallet-funded WiFi and electricity purchases never fail with a
limit-exceeded error — for no input state or request do they return it; an
active wallet with sufficient balance succeeds even when the purchase pushes
daily_spent or monthly_spent past the limit, and the spend counters are
still incremented by the price; only transfer_funds enforces the daily and
monthly limit checks. -/
theorem C10_purchases_ignore_spend_limits :
    (∀ (s : LedgerState) (uid : Nat) (req : WiFiPurchaseRequest),
        runError (purchase_wifi s uid req) ≠ some .dailyLimitExceeded
          ∧ runError (purchase_wifi s uid req) ≠ some .monthlyLimitExceeded)
    ∧ (∀ (s : LedgerState) (uid : Nat) (req : ElecPurchaseRequest),
        runError (purchase_electricity s uid req) ≠ some .dailyLimitExceeded
          ∧ runError (purchase_electricity s uid req) ≠ some .monthlyLimitExceeded)
    ∧ (∀ (s : LedgerState) (uid : Nat) (req : WiFiPurchaseRequest)
          (package : WiFiPackage) (wallet : Wallet),
        s.wifi_packages.find? (fun p => p.id == req.package_id) = some package →
        package.is_active = 1 →
        findWalletByUser s uid = some wallet →
        wallet.status = .ACTIVE →
        ¬ wallet.balance < package.price →
        idemHit s req.idempotency_key = none →
        findWalletById s.wallets wallet.id = some wallet →
        runError (purchase_wifi s uid req) = none
          ∧ findWalletById (runState s (purchase_wifi s uid req)).wallets wallet.id
              = some { wallet with
                        balance := wallet.balance - package.price,
                        daily_spent := wallet.daily_spent + package.price,
                        monthly_spent := wallet.monthly_spent + package.price })
    ∧ (∀ (s : LedgerState) (uid : Nat) (req : ElecPurchaseRequest)
          (package : ElectricityPackage) (meter : ElectricityMeter) (wallet : Wallet),
        s.elec_packages.find? (fun p => p.id == req.package_id) = some package →
        package.is_active = 1 →
        s.meters.find? (fun m => m.id == req.meter_id && m.user_id == uid) = some meter →
        meter.status ≠ .TAMPERED →
        findWalletByUser s uid = some wallet →
        wallet.status = .ACTIVE →
        ¬ wallet.balance < package.price →
        idemHit s req.idempotency_key = none →
        findWalletById s.wallets wallet.id = some wallet →
        runError (purchase_electricity s uid req) = none
          ∧ findWalletById (runState s (purchase_electricity s uid req)).wallets wallet.id
              = some { wallet with
                        balance := wallet.balance - package.price,
                        daily_spent := wallet.daily_spent + package.price,
                        monthly_spent := wallet.monthly_spent + package.price })
    ∧ (∀ (s : LedgerState) (uid : Nat) (req : TransferRequest) (wallet : Wallet),
        findWalletByUser s uid = some wallet →
        wallet.status = .ACTIVE →
        ¬ wallet.balance < req.amount →
        wallet.daily_spent + req.amount > wallet.daily_limit →
        transfer_funds s uid req = .error .dailyLimitExceeded)
    ∧ (∀ (s : LedgerState) (uid : Nat) (req : TransferRequest) (wallet : Wallet),
        findWalletByUser s uid = some wallet →
        wallet.status = .ACTIVE →
        ¬ wallet.balance < req.amount →
        ¬ wallet.daily_spent + req.amount > wallet.daily_limit →
        wallet.monthly_spent + req.amount > wallet.monthly_limit →
        transfer_funds s uid req = .error .monthlyLimitExceeded) := by
  refine ⟨?_, ?_, ?_, ?_, ?_, ?_⟩
  · intro s uid req
    constructor <;>
      · unfold purchase_wifi
        repeat' split
        all_goals simp [runError]
  · intro s uid req
    constructor <;>
      · unfold purchase_electricity
        repeat' split
        all_goals simp [runError]
  · intro s uid req package wallet hpkg hact hw hst hbal hidem hwid
    have hok : purchase_wifi s uid req
        = .ok ({ transaction_id := s.nextId,
                 voucher_id := some (s.nextId + 1),
                 voucher_code := some (vCode (s.nextId + 1)),
                 already_processed := false,
                 new_balance := some (wallet.balance - package.price) },
               wifiSuccState s uid package wallet req.idempotency_key) := by
      simp [purchase_wifi, hpkg, hact, hw, hst, hbal, hidem]
    refine ⟨by simp [runError, hok], ?_⟩
    rw [hok]
    show findWalletById (wifiSuccState s uid package wallet req.idempotency_key).wallets wallet.id = _
    unfold wifiSuccState
    exact findWalletById_updateWalletById s.wallets wallet.id
      (debitWalletForPurchase package.price) (fun w => rfl) wallet hwid
  · intro s uid req package meter wallet hpkg hact hm hnt hw hst hbal hidem hwid
    have hok : purchase_electricity s uid req
        = .ok ({ transaction_id := s.nextId,
                 already_processed := false,
                 new_kwh_balance := some (meter.kwh_balance + package.kwh_amount),
                 new_wallet_balance := some (wallet.balance - package.price) },
               elecSuccState s uid package meter wallet req.idempotency_key) := by
      simp [purchase_electricity, hpkg, hact, hm, hnt, hw, hst, hbal, hidem]
    refine ⟨by simp [runError, hok], ?_⟩
    rw [hok]
    show findWalletById (elecSuccState s uid package meter wallet req.idempotency_key).wallets wallet.id = _
    unfold elecSuccState
    exact findWalletById_updateWalletById s.wallets wallet.id
      (debitWalletForPurchase package.price) (fun w => rfl) wallet hwid
  · intro s uid req wallet hw hst hbal hlim
    simp [transfer_funds, hw, hst, hbal, hlim]
  · intro s uid req wallet hw hst hbal hdlim hmlim
    simp [transfer_funds, hw, hst, hbal, hdlim, hmlim]

/-- Witness for C10: with daily_spent 90 of limit 100, the 25.00 WiFi
purchase succeeds and pushes daily_spent to 115.00 past the limit, while a
25.00 transfer from the same wallet is rejected with the daily-limit error. -/
theorem C10_purchases_ignore_spend_limits_witness :
    (runError (purchase_wifi sLimit 103 { package_id := 1, idempotency_key := none }) = none
      ∧ findWalletById (runState sLimit (purchase_wifi sLimit 103 { package_id := 1, idempotency_key := none })).wallets 13
          = some { limitWallet with balance := 175, daily_spent := 115, monthly_spent := 115 })
    ∧ transfer_funds sLimit 103 { recipient_phone := "0821110000", amount := 25, idempotency_key := none }
        = .error .dailyLimitExceeded := by
  constructor
  · have h := (C10_purchases_ignore_spend_limits.2.2.1) sLimit 103
      { package_id := 1, idempotency_key := none } demoWifiPkg limitWallet
      (by simp [sLimit, demoWifiPkg]) rfl
      (by simp [findWalletByUser, sLimit, limitWallet]) rfl
      (by norm_num [limitWallet, demoWifiPkg]) rfl
      (by simp [findWalletById, sLimit, limitWallet])
    refine ⟨h.1, ?_⟩
    have h2 := h.2
    norm_num [limitWallet, demoWifiPkg] at h2 ⊢
    exact h2
  · exact (C10_purchases_ignore_spend_limits.2.2.2.2.1) sLimit 103
      { recipient_phone := "0821110000", amount := 25, idempotency_key := none } limitWallet
      (by simp [findWalletByUser, sLimit, limitWallet]) rfl
      (by norm_num [limitWallet]) (by norm_num [limitWallet])

/-- Counterexample to C6 as stated: a sale of the 50.00 package by the SILVER
agent (float 200.00) to an unknown phone number succeeds but increases
commission_balance by 13.50, not by 50.00 x 0.07 = 3.50 — the handler also
credits the R10 referral bonus for the newly created customer
(routers/agent.py line 212). -/
theorem C6_commission_counterexample :
    runError (process_transaction sAgent 200 newPhoneSaleReq) = none
    ∧ (findAgentById (runState sAgent (process_transaction sAgent 200 newPhoneSaleReq)).agents 20).map
        Agent.commission_balance = some (27/2)
    ∧ (27/2 : ℚ) ≠ demoAgent.commission_balance
        + agentWifiPkg.price * COMMISSION_RATES demoAgent.tier := by
  refine ⟨?_, ?_, by norm_num [demoAgent, agentWifiPkg, COMMISSION_RATES]⟩ <;>
    norm_num +decide [process_transaction, agentSaleWifiBranch, agentSaleElecBranch, sAgent, agentUser, demoAgent, customerUser,
      customerWallet, agentWifiPkg, newPhoneSaleReq, findAgentByUser, findAgentById,
      findUserByPhone, findWalletByUser, findOrCreateCustomer, Wallet.mkDefault,
      REFERRAL_BONUS_AMOUNT, updateAgentById, agentWifiSuccState, applySaleToAgent,
      COMMISSION_RATES, idemHit, findTxnByKey, runState, runError, vCode, txRef]

/-- C6 amended: for every agent sale of a package priced P — WiFi or
electricity — to an already-registered customer, by an ACTIVE agent of
tier t with float_balance at least P and sufficient cash, the sale debits
float_balance by exactly P and credits commission_balance by exactly
P x rate(t), with rate BRONZE = 0.05, SILVER = 0.07, GOLD = 0.10,
PLATINUM = 0.12 in exact rational arithmetic.  (For an unknown customer
phone the commission also receives the R10 referral bonus — see the
counterexample.) -/
theorem C6_agent_sale_commission
    (s : LedgerState) (uid : Nat) (req : AgentTxRequest)
    (agent : Agent) (customer : User) (cwallet : Wallet)
    (hag : findAgentByUser s uid = some agent)
    (hagid : findAgentById s.agents agent.id = some agent)
    (hst : agent.status = .ACTIVE)
    (hidem : idemHit s req.idempotency_key = none)
    (hcust : findUserByPhone s req.customer_phone = some customer)
    (hcw : findWalletByUser s customer.id = some cwallet) :
    (COMMISSION_RATES .BRONZE = 5/100 ∧ COMMISSION_RATES .SILVER = 7/100
        ∧ COMMISSION_RATES .GOLD = 10/100 ∧ COMMISSION_RATES .PLATINUM = 12/100)
    ∧ (∀ package : WiFiPackage,
        req.product_type = .WIFI →
        s.wifi_packages.find? (fun p => p.id == req.package_id) = some package →
        package.is_active = 1 →
        ¬ agent.float_balance < package.price →
        ¬ req.cash_received < package.price →
        runError (process_transaction s uid req) = none
          ∧ findAgentById (runState s (process_transaction s uid req)).agents agent.id
              = some { agent with
                        float_balance := agent.float_balance - package.price,
                        total_sales := agent.total_sales + package.price,
                        monthly_sales := agent.monthly_sales + package.price,
                        commission_balance := agent.commission_balance
                          + package.price * COMMISSION_RATES agent.tier })
    ∧ (∀ (package : ElectricityPackage) (meter : ElectricityMeter) (meterId : Nat),
        req.product_type = .ELECTRICITY →
        req.meter_id = some meterId →
        s.elec_packages.find? (fun p => p.id == req.package_id) = some package →
        package.is_active = 1 →
        s.meters.find? (fun m => m.id == meterId) = some meter →
        ¬ agent.float_balance < package.price →
        ¬ req.cash_received < package.price →
        runError (process_transaction s uid req) = none
          ∧ findAgentById (runState s (process_transaction s uid req)).agents agent.id
              = some { agent with
                        float_balance := agent.float_balance - package.price,
                        total_sales := agent.total_sales + package.price,
                        monthly_sales := agent.monthly_sales + package.price,
                        commission_balance := agent.commission_balance
                          + package.price * COMMISSION_RATES agent.tier }) := by
  refine ⟨⟨rfl, rfl, rfl, rfl⟩, ?_, ?_⟩
  · intro package hpt hpkg hact hfl hcash
    have hok : process_transaction s uid req
        = .ok ({ transaction_id := s.nextId + 1, already_processed := false,
                 amount := some package.price,
                 commission_earned := some (package.price * COMMISSION_RATES agent.tier),
                 new_float_balance := some (agent.float_balance - package.price),
                 voucher_code := some (vCode s.nextId) },
               agentWifiSuccState s agent customer.id cwallet package req.idempotency_key) := by
      simp [process_transaction, agentSaleWifiBranch, hag, hst, hidem, findOrCreateCustomer,
        hcust, hcw, hpt, hpkg, hact, hfl, hcash]
    refine ⟨by simp [runError, hok], ?_⟩
    rw [hok]
    show findAgentById (agentWifiSuccState s agent customer.id cwallet package req.idempotency_key).agents agent.id = _
    unfold agentWifiSuccState
    exact findAgentById_updateAgentById s.agents agent.id
      (applySaleToAgent package.price) (fun a => rfl) agent hagid
  · intro package meter meterId hpt hmid hpkg hact hmet hfl hcash
    have hok : process_transaction s uid req
        = .ok ({ transaction_id := s.nextId, already_processed := false,
                 amount := some package.price,
                 commission_earned := some (package.price * COMMISSION_RATES agent.tier),
                 new_float_balance := some (agent.float_balance - package.price),
                 voucher_code := none },
               agentElecSuccState s agent cwallet package meter req.idempotency_key) := by
      simp [process_transaction, agentSaleElecBranch, hag, hst, hidem, findOrCreateCustomer,
        hcust, hcw, hpt, hmid, hpkg, hact, hmet, hfl, hcash]
    refine ⟨by simp [runError, hok], ?_⟩
    rw [hok]
    show findAgentById (agentElecSuccState s agent cwallet package meter req.idempotency_key).agents agent.id = _
    unfold agentElecSuccState
    exact findAgentById_updateAgentById s.agents agent.id
      (applySaleToAgent package.price) (fun a => rfl) agent hagid

/-- Witness for C6 amended: SILVER agent, float 200.00, package 50.00, sale
to the registered customer — in both the WiFi and the electricity branch,
float becomes 150.00 and commission rises by exactly 3.50. -/
theorem C6_agent_sale_commission_witness :
    (runError (process_transaction sAgent 200 knownPhoneSaleReq) = none
      ∧ findAgentById (runState sAgent (process_transaction sAgent 200 knownPhoneSaleReq)).agents 20
          = some { demoAgent with
                    float_balance := 150, total_sales := 50, monthly_sales := 50,
                    commission_balance := 7/2 })
    ∧ (runError (process_transaction sAgentElec 200 elecKnownSaleReq) = none
      ∧ findAgentById (runState sAgentElec (process_transaction sAgentElec 200 elecKnownSaleReq)).agents 20
          = some { demoAgent with
                    float_balance := 150, total_sales := 50, monthly_sales := 50,
                    commission_balance := 7/2 }) := by
  constructor
  · have h := (C6_agent_sale_commission sAgent 200 knownPhoneSaleReq demoAgent customerUser
      customerWallet
      (by simp [findAgentByUser, sAgent, demoAgent])
      (by simp [findAgentById, sAgent, demoAgent])
      rfl rfl
      (by simp +decide [findUserByPhone, sAgent, agentUser, customerUser, knownPhoneSaleReq])
      (by simp [findWalletByUser, sAgent, customerWallet, customerUser, Wallet.mkDefault])).2.1
      agentWifiPkg rfl
      (by simp [sAgent, agentWifiPkg, knownPhoneSaleReq])
      rfl
      (by norm_num [demoAgent, agentWifiPkg])
      (by norm_num [knownPhoneSaleReq, agentWifiPkg])
    refine ⟨h.1, ?_⟩
    have h2 := h.2
    norm_num [demoAgent, agentWifiPkg, COMMISSION_RATES] at h2 ⊢
    exact h2
  · have h := (C6_agent_sale_commission sAgentElec 200 elecKnownSaleReq demoAgent customerUser
      customerWallet
      (by simp [findAgentByUser, sAgentElec, demoAgent])
      (by simp [findAgentById, sAgentElec, demoAgent])
      rfl rfl
      (by simp +decide [findUserByPhone, sAgentElec, agentUser, customerUser, elecKnownSaleReq])
      (by simp [findWalletByUser, sAgentElec, customerWallet, customerUser, Wallet.mkDefault])).2.2
      agentElecPkg agentMeter 8 rfl rfl
      (by simp [sAgentElec, agentElecPkg, elecKnownSaleReq])
      rfl
      (by simp [sAgentElec, agentMeter])
      (by norm_num [demoAgent, agentElecPkg])
      (by norm_num [elecKnownSaleReq, agentElecPkg])
    refine ⟨h.1, ?_⟩
    have h2 := h.2
    norm_num [demoAgent, agentElecPkg, COMMISSION_RATES] at h2 ⊢
    exact h2

/-- C9: an agent sale — WiFi or electricity — to a phone number with no
registered user creates the new user and a zero-balance wallet for them and
credits the agent's commission_balance with the R10 referral bonus on top
of the sale commission, so the total commission increase is P x rate(tier)
plus 10.00. -/
theorem C9_new_customer_referral_bonus
    (s : LedgerState) (uid : Nat) (req : AgentTxRequest) (agent : Agent)
    (hag : findAgentByUser s uid = some agent)
    (hagid : findAgentById s.agents agent.id = some agent)
    (hst : agent.status = .ACTIVE)
    (hidem : idemHit s req.idempotency_key = none)
    (hcust : findUserByPhone s req.customer_phone = none) :
    (∀ package : WiFiPackage,
        req.product_type = .WIFI →
        s.wifi_packages.find? (fun p => p.id == req.package_id) = some package →
        package.is_active = 1 →
        ¬ agent.float_balance < package.price →
        ¬ req.cash_received < package.price →
        runError (process_transaction s uid req) = none
        ∧ (∃ u ∈ (runState s (process_transaction s uid req)).users,
            u.phone_number = req.customer_phone
              ∧ ∃ w ∈ (runState s (process_transaction s uid req)).wallets,
                  w.user_id = u.id ∧ w.balance = 0)
        ∧ findAgentById (runState s (process_transaction s uid req)).agents agent.id
            = some { agent with
                      float_balance := agent.float_balance - package.price,
                      total_sales := agent.total_sales + package.price,
                      monthly_sales := agent.monthly_sales + package.price,
                      commission_balance := agent.commission_balance + REFERRAL_BONUS_AMOUNT
                        + package.price * COMMISSION_RATES agent.tier })
    ∧ (∀ (package : ElectricityPackage) (meter : ElectricityMeter) (meterId : Nat),
        req.product_type = .ELECTRICITY →
        req.meter_id = some meterId →
        s.elec_packages.find? (fun p => p.id == req.package_id) = some package →
        package.is_active = 1 →
        s.meters.find? (fun m => m.id == meterId) = some meter →
        ¬ agent.float_balance < package.price →
        ¬ req.cash_received < package.price →
        runError (process_transaction s uid req) = none
        ∧ (∃ u ∈ (runState s (process_transaction s uid req)).users,
            u.phone_number = req.customer_phone
              ∧ ∃ w ∈ (runState s (process_transaction s uid req)).wallets,
                  w.user_id = u.id ∧ w.balance = 0)
        ∧ findAgentById (runState s (process_transaction s uid req)).agents agent.id
            = some { agent with
                      float_balance := agent.float_balance - package.price,
                      total_sales := agent.total_sales + package.price,
                      monthly_sales := agent.monthly_sales + package.price,
                      commission_balance := agent.commission_balance + REFERRAL_BONUS_AMOUNT
                        + package.price * COMMISSION_RATES agent.tier }) := by
  constructor
  · intro package hpt hpkg hact hfl hcash
    have hok : process_transaction s uid req
        = .ok ({ transaction_id := (s.nextId + 2) + 1, already_processed := false,
                 amount := some package.price,
                 commission_earned := some (package.price * COMMISSION_RATES agent.tier),
                 new_float_balance := some (agent.float_balance - package.price),
                 voucher_code := some (vCode (s.nextId + 2)) },
               agentWifiSuccState
                 { s with users := s.users ++ [{ id := s.nextId, phone_number := req.customer_phone, loyalty_points := 0 }],
                          wallets := s.wallets ++ [Wallet.mkDefault (s.nextId + 1) s.nextId],
                          agents := updateAgentById s.agents agent.id fun a =>
                            { a with commission_balance := a.commission_balance + REFERRAL_BONUS_AMOUNT },
                          nextId := s.nextId + 2 }
                 agent s.nextId (Wallet.mkDefault (s.nextId + 1) s.nextId) package
                 req.idempotency_key) := by
      simp [process_transaction, agentSaleWifiBranch, hag, hst, hidem, findOrCreateCustomer,
        hcust, hpt, hpkg, hact, hfl, hcash]
    refine ⟨by simp [runError, hok], ?_, ?_⟩
    · rw [hok]
      show ∃ u ∈ (agentWifiSuccState _ agent s.nextId _ package req.idempotency_key).users, _
      refine ⟨{ id := s.nextId, phone_number := req.customer_phone, loyalty_points := 0 }, ?_, rfl, ?_⟩
      · show _ ∈ s.users ++ [{ id := s.nextId, phone_number := req.customer_phone, loyalty_points := 0 }]
        simp
      · refine ⟨Wallet.mkDefault (s.nextId + 1) s.nextId, ?_, rfl, rfl⟩
        show _ ∈ s.wallets ++ [Wallet.mkDefault (s.nextId + 1) s.nextId]
        simp
    · rw [hok]
      show findAgentById (agentWifiSuccState _ agent s.nextId _ package req.idempotency_key).agents agent.id = _
      unfold agentWifiSuccState
      have h1 : findAgentById
          (updateAgentById s.agents agent.id fun a =>
            { a with commission_balance := a.commission_balance + REFERRAL_BONUS_AMOUNT })
          agent.id
          = some { agent with commission_balance := agent.commission_balance + REFERRAL_BONUS_AMOUNT } :=
        findAgentById_updateAgentById s.agents agent.id
          (fun a => { a with commission_balance := a.commission_balance + REFERRAL_BONUS_AMOUNT })
          (fun a => rfl) agent hagid
      exact findAgentById_updateAgentById _ agent.id
        (applySaleToAgent package.price) (fun a => rfl)
        { agent with commission_balance := agent.commission_balance + REFERRAL_BONUS_AMOUNT } h1
  · intro package meter meterId hpt hmid hpkg hact hmet hfl hcash
    have hok : process_transaction s uid req
        = .ok ({ transaction_id := s.nextId + 2, already_processed := false,
                 amount := some package.price,
                 commission_earned := some (package.price * COMMISSION_RATES agent.tier),
                 new_float_balance := some (agent.float_balance - package.price),
                 voucher_code := none },
               agentElecSuccState
                 { s with users := s.users ++ [{ id := s.nextId, phone_number := req.customer_phone, loyalty_points := 0 }],
                          wallets := s.wallets ++ [Wallet.mkDefault (s.nextId + 1) s.nextId],
                          agents := updateAgentById s.agents agent.id fun a =>
                            { a with commission_balance := a.commission_balance + REFERRAL_BONUS_AMOUNT },
                          nextId := s.nextId + 2 }
                 agent (Wallet.mkDefault (s.nextId + 1) s.nextId) package meter
                 req.idempotency_key) := by
      simp [process_transaction, agentSaleElecBranch, hag, hst, hidem, findOrCreateCustomer,
        hcust, hpt, hmid, hpkg, hact, hmet, hfl, hcash]
    refine ⟨by simp [runError, hok], ?_, ?_⟩
    · rw [hok]
      show ∃ u ∈ (agentElecSuccState _ agent _ package meter req.idempotency_key).users, _
      refine ⟨{ id := s.nextId, phone_number := req.customer_phone, loyalty_points := 0 }, ?_, rfl, ?_⟩
      · show _ ∈ s.users ++ [{ id := s.nextId, phone_number := req.customer_phone, loyalty_points := 0 }]
        simp
      · refine ⟨Wallet.mkDefault (s.nextId + 1) s.nextId, ?_, rfl, rfl⟩
        show _ ∈ s.wallets ++ [Wallet.mkDefault (s.nextId + 1) s.nextId]
        simp
    · rw [hok]
      show findAgentById (agentElecSuccState _ agent _ package meter req.idempotency_key).agents agent.id = _
      unfold agentElecSuccState
      have h1 : findAgentById
          (updateAgentById s.agents agent.id fun a =>
            { a with commission_balance := a.commission_balance + REFERRAL_BONUS_AMOUNT })
          agent.id
          = some { agent with commission_balance := agent.commission_balance + REFERRAL_BONUS_AMOUNT } :=
        findAgentById_updateAgentById s.agents agent.id
          (fun a => { a with commission_balance := a.commission_balance + REFERRAL_BONUS_AMOUNT })
          (fun a => rfl) agent hagid
      exact findAgentById_updateAgentById _ agent.id
        (applySaleToAgent package.price) (fun a => rfl)
        { agent with commission_balance := agent.commission_balance + REFERRAL_BONUS_AMOUNT } h1

/-- Witness for C9: the SILVER agent sells the 50.00 WiFi package and the
50.00 electricity package to the unknown phone 0828880000 — in both cases a
new user with a 0.00 wallet appears and the commission rises by
10.00 + 3.50 = 13.50. -/
theorem C9_new_customer_referral_bonus_witness :
    (runError (process_transaction sAgent 200 newPhoneSaleReq) = none
      ∧ (∃ u ∈ (runState sAgent (process_transaction sAgent 200 newPhoneSaleReq)).users,
          u.phone_number = "0828880000"
            ∧ ∃ w ∈ (runState sAgent (process_transaction sAgent 200 newPhoneSaleReq)).wallets,
                w.user_id = u.id ∧ w.balance = 0)
      ∧ findAgentById (runState sAgent (process_transaction sAgent 200 newPhoneSaleReq)).agents 20
          = some { demoAgent with
                    float_balance := 150, total_sales := 50, monthly_sales := 50,
                    commission_balance := 27/2 })
    ∧ (runError (process_transaction sAgentElec 200 elecNewSaleReq) = none
      ∧ (∃ u ∈ (runState sAgentElec (process_transaction sAgentElec 200 elecNewSaleReq)).users,
          u.phone_number = "0828880000"
            ∧ ∃ w ∈ (runState sAgentElec (process_transaction sAgentElec 200 elecNewSaleReq)).wallets,
                w.user_id = u.id ∧ w.balance = 0)
      ∧ findAgentById (runState sAgentElec (process_transaction sAgentElec 200 elecNewSaleReq)).agents 20
          = some { demoAgent with
                    float_balance := 150, total_sales := 50, monthly_sales := 50,
                    commission_balance := 27/2 }) := by
  constructor
  · have h := (C9_new_customer_referral_bonus sAgent 200 newPhoneSaleReq demoAgent
      (by simp [findAgentByUser, sAgent, demoAgent])
      (by simp [findAgentById, sAgent, demoAgent])
      rfl rfl
      (by simp +decide [findUserByPhone, sAgent, agentUser, customerUser, newPhoneSaleReq])).1
      agentWifiPkg rfl
      (by simp [sAgent, agentWifiPkg, newPhoneSaleReq])
      rfl
      (by norm_num [demoAgent, agentWifiPkg])
      (by norm_num [newPhoneSaleReq, agentWifiPkg])
    refine ⟨h.1, h.2.1, ?_⟩
    have h2 := h.2.2
    norm_num [demoAgent, agentWifiPkg, COMMISSION_RATES, REFERRAL_BONUS_AMOUNT] at h2 ⊢
    exact h2
  · have h := (C9_new_customer_referral_bonus sAgentElec 200 elecNewSaleReq demoAgent
      (by simp [findAgentByUser, sAgentElec, demoAgent])
      (by simp [findAgentById, sAgentElec, demoAgent])
      rfl rfl
      (by simp +decide [findUserByPhone, sAgentElec, agentUser, customerUser, elecNewSaleReq])).2
      agentElecPkg agentMeter 8 rfl rfl
      (by simp [sAgentElec, agentElecPkg, elecNewSaleReq])
      rfl
      (by simp [sAgentElec, agentMeter])
      (by norm_num [demoAgent, agentElecPkg])
      (by norm_num [elecNewSaleReq, agentElecPkg])
    refine ⟨h.1, h.2.1, ?_⟩
    have h2 := h.2.2
    norm_num [demoAgent, agentElecPkg, COMMISSION_RATES, REFERRAL_BONUS_AMOUNT] at h2 ⊢
    exact h2

/-- Counterexample to C8 as stated: a BANK withdrawal of 50.00 from a
commission balance of 100.00 succeeds and debits the commission, but the
committed state contains NO transaction at all — the BANK branch of
withdraw_commission (routers/agent.py lines 506-516) records no payout
transaction, contradicting the claim's "records a transaction describing
the external payout obligation". -/
theorem C8_bank_withdrawal_counterexample :
    runError (withdraw_commission sWithdraw 201 { amount := 50, method := .BANK }) = none
    ∧ (findAgentById (runState sWithdraw (withdraw_commission sWithdraw 201 { amount := 50, method := .BANK })).agents 21).map
        Agent.commission_balance = some 50
    ∧ (runState sWithdraw (withdraw_commission sWithdraw 201 { amount := 50, method := .BANK })).txns = [] := by
  norm_num +decide [withdraw_commission, sWithdraw, richAgent, findAgentByUser, findAgentById,
    withdrawBankSuccState, updateAgentById, runState, runError]

/-- C8 amended: withdraw_commission fails with InsufficientCommission, with
the committed state unchanged, exactly when the requested amount exceeds
commission_balance; otherwise, for method=BANK it debits commission_balance
by the amount and mutates no wallet balance — but it records no transaction
(the payout-obligation transaction the claim describes is never written;
see the counterexample). -/
theorem C8_withdraw_commission_spec
    (s : LedgerState) (uid : Nat) (req : WithdrawRequest) (agent : Agent)
    (hag : findAgentByUser s uid = some agent)
    (hagid : findAgentById s.agents agent.id = some agent)
    (hst : agent.status = .ACTIVE) :
    ((withdraw_commission s uid req = .error .insufficientCommission)
        ↔ req.amount > agent.commission_balance)
    ∧ (req.amount > agent.commission_balance →
        runState s (withdraw_commission s uid req) = s)
    ∧ (req.method = .BANK → ¬ req.amount > agent.commission_balance →
        runError (withdraw_commission s uid req) = none
          ∧ findAgentById (runState s (withdraw_commission s uid req)).agents agent.id
              = some { agent with commission_balance := agent.commission_balance - req.amount }
          ∧ (runState s (withdraw_commission s uid req)).wallets = s.wallets
          ∧ (runState s (withdraw_commission s uid req)).txns = s.txns) := by
  refine ⟨⟨?_, ?_⟩, ?_, ?_⟩
  · intro h
    by_contra hn
    revert h
    unfold withdraw_commission
    rw [hag]
    simp only [hst, hn]
    simp only [ite_false, if_neg (by simp : ¬ AgentStatus.ACTIVE ≠ AgentStatus.ACTIVE)]
    cases req.method
    · cases hw : findWalletByUser s uid <;> simp
    · simp
  · intro h
    simp [withdraw_commission, hag, hst, h]
  · intro h
    simp [withdraw_commission, hag, hst, h, runState]
  · intro hm hn
    have hok : withdraw_commission s uid req
        = .ok ({ amount := req.amount,
                 new_commission_balance := agent.commission_balance - req.amount,
                 new_wallet_balance := none },
               withdrawBankSuccState s agent req.amount) := by
      simp [withdraw_commission, hag, hst, hn, hm]
    refine ⟨by simp [runError, hok], ?_, ?_, ?_⟩
    · rw [hok]
      show findAgentById (withdrawBankSuccState s agent req.amount).agents agent.id = _
      unfold withdrawBankSuccState
      exact findAgentById_updateAgentById s.agents agent.id
        (fun a => { a with commission_balance := a.commission_balance - req.amount })
        (fun a => rfl) agent hagid
    · rw [hok]; rfl
    · rw [hok]; rfl

/-- Witness for C8 amended: the BANK withdrawal of 50.00 out of 100.00
commission debits the commission to 50.00, touches no wallet, and writes no
transaction; and requesting 150.00 is rejected with InsufficientCommission. -/
theorem C8_withdraw_commission_spec_witness :
    (withdraw_commission sWithdraw 201 { amount := 150, method := .BANK }
        = .error .insufficientCommission)
    ∧ runError (withdraw_commission sWithdraw 201 { amount := 50, method := .BANK }) = none
    ∧ (runState sWithdraw (withdraw_commission sWithdraw 201 { amount := 50, method := .BANK })).wallets
        = sWithdraw.wallets
    ∧ (runState sWithdraw (withdraw_commission sWithdraw 201 { amount := 50, method := .BANK })).txns
        = sWithdraw.txns := by
  have hfind : findAgentByUser sWithdraw 201 = some richAgent := by
    simp [findAgentByUser, sWithdraw, richAgent]
  have hfindid : findAgentById sWithdraw.agents 21 = some richAgent := by
    simp [findAgentById, sWithdraw, richAgent]
  have hbig := (C8_withdraw_commission_spec sWithdraw 201 { amount := 150, method := .BANK }
    richAgent hfind hfindid rfl).1.mpr (by norm_num [richAgent])
  have hsmall := (C8_withdraw_commission_spec sWithdraw 201 { amount := 50, method := .BANK }
    richAgent hfind hfindid rfl).2.2 rfl (by norm_num [richAgent])
  exact ⟨hbig, hsmall.1, hsmall.2.2.1, hsmall.2.2.2⟩

/-- The customer find-or-create step never touches the transaction table. -/
theorem findOrCreateCustomer_txns (s : LedgerState) (agent : Agent) (phone : String) :
    (findOrCreateCustomer s agent phone).2.2.txns = s.txns := by
  unfold findOrCreateCustomer
  repeat' split
  all_goals rfl

/-- The customer find-or-create step never touches the voucher table. -/
theorem findOrCreateCustomer_vouchers (s : LedgerState) (agent : Agent) (phone : String) :
    (findOrCreateCustomer s agent phone).2.2.vouchers = s.vouchers := by
  unfold findOrCreateCustomer
  repeat' split
  all_goals rfl

/-- The customer find-or-create step only advances the fresh-id counter. -/
theorem findOrCreateCustomer_nextId (s : LedgerState) (agent : Agent) (phone : String) :
    s.nextId ≤ (findOrCreateCustomer s agent phone).2.2.nextId := by
  unfold findOrCreateCustomer
  repeat' split
  all_goals simp

/-- Every successful WIFI agent sale commits exactly the
agentWifiSuccState of some package. -/
theorem agentSaleWifiBranch_ok (s1 : LedgerState) (agent : Agent) (customerId : Nat)
    (cwallet : Wallet) (packageId : Nat) (cash : ℚ) (key : Option String)
    (r : AgentTxResult) (s' : LedgerState)
    (h : agentSaleWifiBranch s1 agent customerId cwallet packageId cash key = .ok (r, s')) :
    ∃ package, s' = agentWifiSuccState s1 agent customerId cwallet package key := by
  unfold agentSaleWifiBranch at h
  repeat' split at h
  all_goals try exact Except.noConfusion h
  simp only [Except.ok.injEq, Prod.mk.injEq] at h
  exact ⟨_, h.2.symm⟩

/-- Every successful ELECTRICITY agent sale commits exactly the
agentElecSuccState of some package and meter. -/
theorem agentSaleElecBranch_ok (s1 : LedgerState) (agent : Agent) (cwallet : Wallet)
    (packageId meterId : Nat) (cash : ℚ) (key : Option String)
    (r : AgentTxResult) (s' : LedgerState)
    (h : agentSaleElecBranch s1 agent cwallet packageId meterId cash key = .ok (r, s')) :
    ∃ package meter, s' = agentElecSuccState s1 agent cwallet package meter key := by
  unfold agentSaleElecBranch at h
  repeat' split at h
  all_goals try exact Except.noConfusion h
  simp only [Except.ok.injEq, Prod.mk.injEq] at h
  exact ⟨_, _, h.2.symm⟩

/-- purchase_wifi preserves the delta law. -/
theorem deltaInv_wifi (s : LedgerState) (uid : Nat) (req : WiFiPurchaseRequest)
    (h : DeltaInv s) : DeltaInv (runState s (purchase_wifi s uid req)) := by
  unfold purchase_wifi
  repeat' split
  any_goals exact h
  intro t ht
  simp only [runState, wifiSuccState, List.mem_append, List.mem_singleton] at ht
  rcases ht with ht | rfl
  · exact h t ht
  · constructor
    · intro _
      show _ - _ = _
      ring
    · intro hpm
      exact absurd hpm (by simp)

/-- purchase_electricity preserves the delta law. -/
theorem deltaInv_elec (s : LedgerState) (uid : Nat) (req : ElecPurchaseRequest)
    (h : DeltaInv s) : DeltaInv (runState s (purchase_electricity s uid req)) := by
  unfold purchase_electricity
  repeat' split
  any_goals exact h
  intro t ht
  simp only [runState, elecSuccState, List.mem_append, List.mem_singleton] at ht
  rcases ht with ht | rfl
  · exact h t ht
  · constructor
    · intro _
      show _ - _ = _
      ring
    · intro hpm
      exact absurd hpm (by simp)

/-- transfer_funds preserves the delta law on both legs. -/
theorem deltaInv_transfer (s : LedgerState) (uid : Nat) (req : TransferRequest)
    (h : DeltaInv s) : DeltaInv (runState s (transfer_funds s uid req)) := by
  unfold transfer_funds
  repeat' split
  any_goals exact h
  intro t ht
  simp only [runState, transferSuccState, List.mem_append, List.mem_cons,
    List.mem_singleton, List.not_mem_nil, or_false] at ht
  rcases ht with ht | rfl | rfl
  · exact h t ht
  · constructor
    · intro _
      show _ - _ = _
      ring
    · intro hpm
      exact absurd hpm (by simp)
  · constructor
    · intro _
      show _ - _ = _
      ring
    · intro hpm
      exact absurd hpm (by simp)

/-- process_transaction preserves the delta law: agent-sale rows are written
with balance_after = balance_before. -/
theorem deltaInv_agentSale (s : LedgerState) (uid : Nat) (req : AgentTxRequest)
    (h : DeltaInv s) : DeltaInv (runState s (process_transaction s uid req)) := by
  cases hres : process_transaction s uid req with
  | error e => exact h
  | ok p =>
    obtain ⟨r, s'⟩ := p
    show DeltaInv s'
    unfold process_transaction at hres
    repeat' split at hres
    all_goals try exact Except.noConfusion hres
    · simp only [Except.ok.injEq, Prod.mk.injEq] at hres
      obtain ⟨-, hs⟩ := hres
      subst hs
      exact h
    · obtain ⟨package, hs⟩ := agentSaleWifiBranch_ok _ _ _ _ _ _ _ _ _ hres
      subst hs
      intro t ht
      simp only [agentWifiSuccState, List.mem_append, List.mem_singleton,
        findOrCreateCustomer_txns] at ht
      rcases ht with ht | rfl
      · exact h t ht
      · exact ⟨fun hpm => absurd rfl hpm, fun _ => rfl⟩
    · obtain ⟨package, meter, hs⟩ := agentSaleElecBranch_ok _ _ _ _ _ _ _ _ _ hres
      subst hs
      intro t ht
      simp only [agentElecSuccState, List.mem_append, List.mem_singleton,
        findOrCreateCustomer_txns] at ht
      rcases ht with ht | rfl
      · exact h t ht
      · exact ⟨fun hpm => absurd rfl hpm, fun _ => rfl⟩

/-- withdraw_commission preserves the delta law (the WALLET branch writes
before/after exactly amount apart; the BANK branch writes no row). -/
theorem deltaInv_withdraw (s : LedgerState) (uid : Nat) (req : WithdrawRequest)
    (h : DeltaInv s) : DeltaInv (runState s (withdraw_commission s uid req)) := by
  unfold withdraw_commission
  repeat' split
  any_goals exact h
  intro t ht
  simp only [runState, withdrawWalletSuccState, List.mem_append, List.mem_singleton] at ht
  rcases ht with ht | rfl
  · exact h t ht
  · constructor
    · intro _
      show _ - _ = _
      ring
    · intro hpm
      exact absurd hpm (by simp)

/-- C2 corrected: in every committed state reachable by any request sequence
from a state satisfying the law, every COMPLETED-or-otherwise transaction
row NOT written by an agent sale satisfies balance_after - balance_before =
amount exactly, and agent-sale rows (payment_method AGENT) instead satisfy
balance_after = balance_before — the claim's universal equality fails
precisely on agent-sale rows (see the counterexample). -/
theorem C2_delta_invariant (s0 s : LedgerState) (h0 : DeltaInv s0)
    (hr : Reachable s0 s) : DeltaInv s := by
  induction hr with
  | refl => exact h0
  | tail op _ ih =>
    cases op with
    | wifi uid req => exact deltaInv_wifi _ uid req ih
    | elec uid req => exact deltaInv_elec _ uid req ih
    | transfer uid req => exact deltaInv_transfer _ uid req ih
    | agentSale uid req => exact deltaInv_agentSale _ uid req ih
    | withdraw uid req => exact deltaInv_withdraw _ uid req ih

/-- Witness for C2 amended: one wallet WiFi purchase from the scenario state
commits a state still satisfying the delta law. -/
theorem C2_delta_invariant_witness :
    DeltaInv (step sPurchase (.wifi 100 { package_id := 1, idempotency_key := none })) :=
  C2_delta_invariant sPurchase _ (by simp [DeltaInv, sPurchase])
    (Reachable.tail _ Reachable.refl)

/-- Counterexample to C2 as stated: the committed (reachable) state after
the concrete agent sale contains a transaction row with
balance_after - balance_before = 0 but amount = +50.00 — the agent-sale row
(routers/agent.py lines 276-291) stores the positive sale price with
balance_before = balance_after, so the claim's equality fails. -/
theorem C2_delta_counterexample :
    Reachable sAgent (step sAgent (.agentSale 200 knownPhoneSaleReq))
    ∧ ¬ DeltaLawAll (step sAgent (.agentSale 200 knownPhoneSaleReq)) := by
  refine ⟨Reachable.tail _ Reachable.refl, ?_⟩
  norm_num +decide [DeltaLawAll, step, process_transaction, agentSaleWifiBranch, sAgent, agentUser, demoAgent,
    customerUser, customerWallet, agentWifiPkg, knownPhoneSaleReq, findAgentByUser,
    findUserByPhone, findWalletByUser, findOrCreateCustomer, Wallet.mkDefault,
    updateAgentById, agentWifiSuccState, applySaleToAgent, COMMISSION_RATES,
    idemHit, findTxnByKey, runState, vCode, txRef]

/-- Appending one voucher adds one to the link count of the transaction it
references and leaves all other counts unchanged. -/
theorem countLinked_append (vs : List WiFiVoucher) (v : WiFiVoucher) (i : Nat) :
    countLinked (vs ++ [v]) i
      = countLinked vs i + if v.transaction_id = some i then 1 else 0 := by
  unfold countLinked
  rw [List.filter_append, List.length_append]
  congr 1
  by_cases h : v.transaction_id = some i
  · simp [h]
  · simp [h]

/-- A transaction id referenced by no voucher has link count zero. -/
theorem countLinked_eq_zero (vs : List WiFiVoucher) (i : Nat)
    (h : ∀ v ∈ vs, ∀ j, v.transaction_id = some j → j ≠ i) :
    countLinked vs i = 0 := by
  induction vs with
  | nil => rfl
  | cons v vs ih =>
    have hv : (v.transaction_id == some i) = false := by
      cases hvt : v.transaction_id with
      | none => rfl
      | some j =>
        have hne := h v (List.mem_cons_self v vs) j hvt
        simp [hne]
    have htail : countLinked vs i = 0 :=
      ih fun w hw j hj => h w (List.mem_cons_of_mem v hw) j hj
    unfold countLinked at htail ⊢
    rw [List.filter_cons, hv]
    simpa using htail

/-- Appending vouchers that carry no transaction_id link changes no count. -/
theorem countLinked_append_none (vs M : List WiFiVoucher) (i : Nat)
    (hM : ∀ v ∈ M, v.transaction_id = none) :
    countLinked (vs ++ M) i = countLinked vs i := by
  induction M with
  | nil => simp
  | cons v M ih =>
    have hv : v.transaction_id = none := hM v (List.mem_cons_self v M)
    have hvb : (v.transaction_id == some i) = false := by simp [hv]
    have := ih fun w hw => hM w (List.mem_cons_of_mem v hw)
    unfold countLinked at this ⊢
    rw [show vs ++ v :: M = (vs ++ [v]) ++ M by simp] at *
    rw [List.filter_append, List.filter_append] at *
    simpa [hvb] using this

/-- GoodState transports along state changes that keep the transaction and
voucher tables and only advance the fresh-id counter. -/
theorem goodState_of_eq (s s' : LedgerState) (htx : s'.txns = s.txns)
    (hvs : s'.vouchers = s.vouchers) (hn : s.nextId ≤ s'.nextId)
    (h : GoodState s) : GoodState s' := by
  obtain ⟨⟨hb1, hb2⟩, hl1, hl2⟩ := h
  refine ⟨⟨?_, ?_⟩, ?_, ?_⟩
  · intro t ht
    rw [htx] at ht
    exact lt_of_lt_of_le (hb1 t ht) hn
  · intro v hv j hj
    rw [hvs] at hv
    exact lt_of_lt_of_le (hb2 v hv j hj) hn
  · intro t ht h1 h2 h3
    rw [htx] at ht
    rw [hvs]
    exact hl1 t ht h1 h2 h3
  · intro v hv j hj
    rw [hvs] at hv
    rw [htx]
    exact hl2 v hv j hj

/-- GoodState is preserved by committing one fresh transaction together with
exactly one voucher linked to it (the wallet WiFi purchase shape). -/
theorem goodState_append_linked (s s' : LedgerState) (T : Txn) (V : WiFiVoucher)
    (htx : s'.txns = s.txns ++ [T]) (hvs : s'.vouchers = s.vouchers ++ [V])
    (hTid : T.id = s.nextId) (hn : s.nextId < s'.nextId)
    (hV : V.transaction_id = some T.id)
    (hTst : T.status = .COMPLETED) (hTty : T.type = .PURCHASE)
    (h : GoodState s) : GoodState s' := by
  obtain ⟨⟨hb1, hb2⟩, hl1, hl2⟩ := h
  refine ⟨⟨?_, ?_⟩, ?_, ?_⟩
  · intro t ht
    rw [htx] at ht
    rcases List.mem_append.mp ht with ht | ht
    · exact lt_trans (hb1 t ht) hn
    · rw [List.mem_singleton.mp ht, hTid]
      exact hn
  · intro v hv j hj
    rw [hvs] at hv
    rcases List.mem_append.mp hv with hv | hv
    · exact lt_trans (hb2 v hv j hj) hn
    · rw [List.mem_singleton.mp hv] at hj
      rw [hV] at hj
      injection hj with hj
      rw [← hj, hTid]
      exact hn
  · intro t ht h1 h2 h3
    rw [htx] at ht
    rw [hvs, countLinked_append]
    rcases List.mem_append.mp ht with ht | ht
    · have hne : ¬ V.transaction_id = some t.id := by
        rw [hV, hTid]
        intro hcon
        injection hcon with hcon
        exact absurd (hcon ▸ hb1 t ht) (lt_irrefl _)
      rw [if_neg hne]
      simpa using hl1 t ht h1 h2 h3
    · rw [List.mem_singleton.mp ht]
      rw [if_pos hV]
      have hzero : countLinked s.vouchers T.id = 0 := by
        apply countLinked_eq_zero
        intro v hv j hj
        rw [hTid]
        exact Nat.ne_of_lt (hb2 v hv j hj)
      rw [hzero]
  · intro v hv j hj
    rw [hvs] at hv
    rw [htx]
    rcases List.mem_append.mp hv with hv | hv
    · obtain ⟨t, htm, hid, hst, hty⟩ := hl2 v hv j hj
      exact ⟨t, List.mem_append_left _ htm, hid, hst, hty⟩
    · rw [List.mem_singleton.mp hv] at hj
      rw [hV] at hj
      injection hj with hj
      exact ⟨T, List.mem_append_right _ (List.mem_singleton.mpr rfl), hj, hTst, hTty⟩

/-- GoodState is preserved by committing transactions that are not
wallet-funded WiFi purchases, together with vouchers that carry no
transaction_id link (the shape of every other ledger operation). -/
theorem goodState_append_nonwifi (s s' : LedgerState) (L : List Txn) (M : List WiFiVoucher)
    (htx : s'.txns = s.txns ++ L) (hvs : s'.vouchers = s.vouchers ++ M)
    (hn : s.nextId ≤ s'.nextId)
    (hL : ∀ T ∈ L, T.id < s'.nextId
      ∧ (T.payment_method ≠ some .WALLET ∨ T.product_type ≠ some .WIFI ∨ T.type ≠ .PURCHASE))
    (hM : ∀ V ∈ M, V.transaction_id = none)
    (h : GoodState s) : GoodState s' := by
  obtain ⟨⟨hb1, hb2⟩, hl1, hl2⟩ := h
  refine ⟨⟨?_, ?_⟩, ?_, ?_⟩
  · intro t ht
    rw [htx] at ht
    rcases List.mem_append.mp ht with ht | ht
    · exact lt_of_lt_of_le (hb1 t ht) hn
    · exact (hL t ht).1
  · intro v hv j hj
    rw [hvs] at hv
    rcases List.mem_append.mp hv with hv | hv
    · exact lt_of_lt_of_le (hb2 v hv j hj) hn
    · rw [hM v hv] at hj
      exact Option.noConfusion hj
  · intro t ht h1 h2 h3
    rw [htx] at ht
    rw [hvs, countLinked_append_none s.vouchers M t.id hM]
    rcases List.mem_append.mp ht with ht | ht
    · exact hl1 t ht h1 h2 h3
    · rcases (hL t ht).2 with hc | hc | hc
      · exact absurd h1 hc
      · exact absurd h2 hc
      · exact absurd h3 hc
  · intro v hv j hj
    rw [hvs] at hv
    rw [htx]
    rcases List.mem_append.mp hv with hv | hv
    · obtain ⟨t, htm, hid, hst, hty⟩ := hl2 v hv j hj
      exact ⟨t, List.mem_append_left _ htm, hid, hst, hty⟩
    · rw [hM v hv] at hj
      exact Option.noConfusion hj

/-- purchase_wifi preserves GoodState: it links its voucher 1:1. -/
theorem goodState_wifi (s : LedgerState) (uid : Nat) (req : WiFiPurchaseRequest)
    (h : GoodState s) : GoodState (runState s (purchase_wifi s uid req)) := by
  unfold purchase_wifi
  repeat' split
  any_goals exact h
  refine goodState_append_linked s _ _ _ rfl rfl rfl ?_ rfl rfl rfl h
  show s.nextId < s.nextId + 2
  omega

/-- purchase_electricity preserves GoodState: its transaction is tagged
ELECTRICITY and no voucher is written. -/
theorem goodState_elec (s : LedgerState) (uid : Nat) (req : ElecPurchaseRequest)
    (h : GoodState s) : GoodState (runState s (purchase_electricity s uid req)) := by
  unfold purchase_electricity
  repeat' split
  any_goals exact h
  refine goodState_append_nonwifi s _ [_] [] rfl (by simp [runState, elecSuccState])
    ?_ ?_ (by simp) h
  · show s.nextId ≤ s.nextId + 1
    omega
  · intro T hT
    rw [List.mem_singleton] at hT
    subst hT
    refine ⟨?_, Or.inr (Or.inl (by simp))⟩
    show s.nextId < s.nextId + 1
    omega

/-- transfer_funds preserves GoodState: its two legs are TRANSFER rows with
no product tag and no voucher is written. -/
theorem goodState_transfer (s : LedgerState) (uid : Nat) (req : TransferRequest)
    (h : GoodState s) : GoodState (runState s (transfer_funds s uid req)) := by
  unfold transfer_funds
  repeat' split
  any_goals exact h
  refine goodState_append_nonwifi s _ [_, _] [] rfl (by simp [runState, transferSuccState])
    ?_ ?_ (by simp) h
  · show s.nextId ≤ s.nextId + 2
    omega
  · intro T hT
    simp only [List.mem_cons, List.mem_singleton, List.not_mem_nil, or_false] at hT
    rcases hT with rfl | rfl
    · refine ⟨?_, Or.inr (Or.inl (by simp))⟩
      show s.nextId < s.nextId + 2
      omega
    · refine ⟨?_, Or.inr (Or.inl (by simp))⟩
      show s.nextId + 1 < s.nextId + 2
      omega

/-- The find-or-create step preserves GoodState (it only adds users and
wallets and advances the counter). -/
theorem goodState_findOrCreateCustomer (s : LedgerState) (agent : Agent) (phone : String)
    (h : GoodState s) : GoodState (findOrCreateCustomer s agent phone).2.2 :=
  goodState_of_eq s _ (findOrCreateCustomer_txns s agent phone)
    (findOrCreateCustomer_vouchers s agent phone)
    (findOrCreateCustomer_nextId s agent phone) h

/-- The committed state of a WIFI agent sale preserves GoodState: the
transaction is an AGENT row and the voucher carries no link. -/
theorem goodState_agentWifiSuccState (s1 : LedgerState) (agent : Agent) (cid : Nat)
    (cw : Wallet) (package : WiFiPackage) (key : Option String)
    (h1 : GoodState s1) : GoodState (agentWifiSuccState s1 agent cid cw package key) := by
  refine goodState_append_nonwifi s1 _ [_] [_] rfl rfl ?_ ?_ ?_ h1
  · show s1.nextId ≤ s1.nextId + 2
    omega
  · intro T hT
    rw [List.mem_singleton] at hT
    subst hT
    refine ⟨?_, Or.inl (by simp)⟩
    show s1.nextId + 1 < s1.nextId + 2
    omega
  · intro V hV
    rw [List.mem_singleton] at hV
    subst hV
    rfl

/-- The committed state of an ELECTRICITY agent sale preserves GoodState. -/
theorem goodState_agentElecSuccState (s1 : LedgerState) (agent : Agent)
    (cw : Wallet) (package : ElectricityPackage) (meter : ElectricityMeter)
    (key : Option String)
    (h1 : GoodState s1) : GoodState (agentElecSuccState s1 agent cw package meter key) := by
  refine goodState_append_nonwifi s1 _ [_] [] rfl (by simp [agentElecSuccState])
    ?_ ?_ (by simp) h1
  · show s1.nextId ≤ s1.nextId + 1
    omega
  · intro T hT
    rw [List.mem_singleton] at hT
    subst hT
    refine ⟨?_, Or.inl (by simp)⟩
    show s1.nextId < s1.nextId + 1
    omega

/-- process_transaction preserves GoodState. -/
theorem goodState_agentSale (s : LedgerState) (uid : Nat) (req : AgentTxRequest)
    (h : GoodState s) : GoodState (runState s (process_transaction s uid req)) := by
  cases hres : process_transaction s uid req with
  | error e => exact h
  | ok p =>
    obtain ⟨r, s'⟩ := p
    show GoodState s'
    unfold process_transaction at hres
    repeat' split at hres
    all_goals try exact Except.noConfusion hres
    · simp only [Except.ok.injEq, Prod.mk.injEq] at hres
      obtain ⟨-, hs⟩ := hres
      subst hs
      exact h
    · obtain ⟨package, hs⟩ := agentSaleWifiBranch_ok _ _ _ _ _ _ _ _ _ hres
      subst hs
      exact goodState_agentWifiSuccState _ _ _ _ _ _
        (goodState_findOrCreateCustomer s _ _ h)
    · obtain ⟨package, meter, hs⟩ := agentSaleElecBranch_ok _ _ _ _ _ _ _ _ _ hres
      subst hs
      exact goodState_agentElecSuccState _ _ _ _ _ _
        (goodState_findOrCreateCustomer s _ _ h)

/-- withdraw_commission preserves GoodState: the WALLET branch writes a
COMMISSION row (not a PURCHASE) and no voucher; the BANK branch writes
nothing. -/
theorem goodState_withdraw (s : LedgerState) (uid : Nat) (req : WithdrawRequest)
    (h : GoodState s) : GoodState (runState s (withdraw_commission s uid req)) := by
  unfold withdraw_commission
  repeat' split
  any_goals exact h
  refine goodState_append_nonwifi s _ [_] [] rfl (by simp [runState, withdrawWalletSuccState])
    ?_ ?_ (by simp) h
  · show s.nextId ≤ s.nextId + 1
    omega
  · intro T hT
    rw [List.mem_singleton] at hT
    subst hT
    refine ⟨?_, Or.inr (Or.inr (by simp))⟩
    show s.nextId < s.nextId + 1
    omega

/-- C1 corrected: in every committed state reachable from a GoodState start,
wallet-funded WiFi purchase transactions have exactly one voucher linked via
transaction_id, and every voucher carrying a transaction_id link points at
an existing COMPLETED PURCHASE transaction; but the claim's universal "every
COMPLETED PURCHASE has exactly one linked credit" is false — agent-sale
vouchers are written with transaction_id = NULL (routers/agent.py lines
264-271 omit the field) and electricity credits have no per-credit record
at all, so those purchase rows have no linked credit (see counterexample). -/
theorem C1_credit_link_invariant (s0 s : LedgerState) (h0 : GoodState s0)
    (hr : Reachable s0 s) : GoodState s := by
  induction hr with
  | refl => exact h0
  | tail op _ ih =>
    cases op with
    | wifi uid req => exact goodState_wifi _ uid req ih
    | elec uid req => exact goodState_elec _ uid req ih
    | transfer uid req => exact goodState_transfer _ uid req ih
    | agentSale uid req => exact goodState_agentSale _ uid req ih
    | withdraw uid req => exact goodState_withdraw _ uid req ih

/-- Witness for C1 amended: one wallet WiFi purchase from the scenario state
commits a state still satisfying the link invariant. -/
theorem C1_credit_link_invariant_witness :
    GoodState (step sPurchase (.wifi 100 { package_id := 1, idempotency_key := none })) :=
  C1_credit_link_invariant sPurchase _
    (by refine ⟨⟨?_, ?_⟩, ?_, ?_⟩ <;> simp [sPurchase])
    (Reachable.tail _ Reachable.refl)

/-- Counterexample to C1 as stated: the committed (reachable) state after
the concrete agent WiFi sale contains a COMPLETED PURCHASE transaction that
debited the agent float, yet no voucher is linked to it — the sale's voucher
is written without a transaction_id. -/
theorem C1_link_counterexample :
    Reachable sAgent (step sAgent (.agentSale 200 knownPhoneSaleReq))
    ∧ ¬ PurchaseCreditLinked (step sAgent (.agentSale 200 knownPhoneSaleReq))
    ∧ (step sAgent (.agentSale 200 knownPhoneSaleReq)).vouchers.length = 1
    ∧ ∀ v ∈ (step sAgent (.agentSale 200 knownPhoneSaleReq)).vouchers,
        v.transaction_id = none := by
  refine ⟨Reachable.tail _ Reachable.refl, ?_, ?_, ?_⟩ <;>
    norm_num +decide [PurchaseCreditLinked, countLinked, step, process_transaction,
      agentSaleWifiBranch, sAgent, agentUser, demoAgent, customerUser, customerWallet,
      agentWifiPkg, knownPhoneSaleReq, findAgentByUser, findUserByPhone, findWalletByUser,
      findOrCreateCustomer, Wallet.mkDefault, updateAgentById, agentWifiSuccState,
      applySaleToAgent, COMMISSION_RATES, idemHit, findTxnByKey, runState, vCode, txRef]

end Lokal

